import Mathlib

/-!
# Verification of the Haze phonetic transformation engine

A shallow embedding, in Lean 4, of the core engine of `src/Haze/phonetic_fuzzer.py`
(class `Hazer`): phonetic encoders (`soundex`, `metaphone_simple`), the
`difflib.SequenceMatcher`-based similarity scorer (`phonetic_distance`), the
tiered word-list provider (`load_word_list` and its tiers), the nearest-match
finder (`find_most_similar_word`), the translation shim (`simple_translate`),
the sentence pipelines (`haze`, `fuzzy_haze`, `hybrid_haze`) and the
convergence loop (`rehaze`).

Modelling conventions:
* Python strings are Lean `String`s; the handful of `str` methods the code
  uses (`lower`, `upper`, `isalpha`, `strip`, `split`, `replace`,
  `startswith`) are embedded below for the character ranges the repository's
  data and inputs use (ASCII, Latin-1 and Latin-Extended-A letters).
* Python floats are modelled as exact rationals `ℚ`; `float("inf")` (used
  only as the initial best distance of the nearest-match scan, and the
  similarities derived from it) is modelled as `Option ℚ` with `none` for an
  infinite value.
* The external collaborators (the two word-list HTTP fetches, the
  `GoogleTranslator` call and the Anthropic composition call) are inputs of
  every operation, gathered in a `World` structure; `none` models the Python
  call raising (each call site catches every exception).
* The mutable per-language cache `self.word_lists` is threaded explicitly as
  a `HazerState`; `dict` assignment is modelled by consing onto an
  association list looked up front-to-back.
* The only `raise` in the engine (`_get_builtin_wordlist` for an unsupported
  language) is modelled by `Except String`; the error payload is a shortened
  form of the Python message.
-/

namespace Haze

/-! ## Python character and string primitives -/

/-- `str.lower` per character, for ASCII, Latin-1 and the Œ/Ÿ pairs of
Latin-Extended-A (the ranges occurring in this repository's data); any other
character is returned unchanged. -/
def pyLowerChar (c : Char) : Char :=
  if 65 ≤ c.toNat ∧ c.toNat ≤ 90 then Char.ofNat (c.toNat + 32)
  else if 192 ≤ c.toNat ∧ c.toNat ≤ 222 ∧ c.toNat ≠ 215 then Char.ofNat (c.toNat + 32)
  else if c.toNat = 338 then Char.ofNat 339
  else if c.toNat = 376 then Char.ofNat 255
  else c

/-- `str.upper` per character for the same ranges; `ß` uppercases to `SS`
(hence the list-valued result, exactly as Python's `str.upper` may grow a
string). -/
def pyUpperChar (c : Char) : List Char :=
  if 97 ≤ c.toNat ∧ c.toNat ≤ 122 then [Char.ofNat (c.toNat - 32)]
  else if c.toNat = 223 then ['S', 'S']
  else if 224 ≤ c.toNat ∧ c.toNat ≤ 254 ∧ c.toNat ≠ 247 then [Char.ofNat (c.toNat - 32)]
  else if c.toNat = 339 then [Char.ofNat 338]
  else if c.toNat = 255 then [Char.ofNat 376]
  else [c]

/-- `str.isalpha` per character, restricted to ASCII letters, Latin-1 letters
(excluding `×` and `÷`) and Latin-Extended-A (U+0100..U+017F, all letters). -/
def pyIsAlpha (c : Char) : Bool :=
  decide ((65 ≤ c.toNat ∧ c.toNat ≤ 90) ∨ (97 ≤ c.toNat ∧ c.toNat ≤ 122) ∨
    (192 ≤ c.toNat ∧ c.toNat ≤ 255 ∧ c.toNat ≠ 215 ∧ c.toNat ≠ 247) ∨
    (256 ≤ c.toNat ∧ c.toNat ≤ 383))

/-- ASCII digit test (`str.isdigit` on the inputs at hand). -/
def pyIsDigit (c : Char) : Bool :=
  decide (48 ≤ c.toNat ∧ c.toNat ≤ 57)

/-- The regex word-character class `\w`: letters, digits and underscore. -/
def isWordChar (c : Char) : Bool :=
  pyIsAlpha c || pyIsDigit c || c = '_'

/-- Python `str` whitespace (the characters `str.split()`/`str.strip()` use). -/
def pyIsSpace (c : Char) : Bool :=
  c = ' ' || c = '\t' || c = '\n' || c = '\r' || c = Char.ofNat 11 || c = Char.ofNat 12

/-- `str.lower`. -/
def pyLowerStr (s : String) : String :=
  String.mk (s.data.map pyLowerChar)

/-- `str.upper`. -/
def pyUpperStr (s : String) : String :=
  String.mk ((s.data.map pyUpperChar).flatten)

/-- `str.strip()` on a character list. -/
def pyStripList (l : List Char) : List Char :=
  ((l.dropWhile pyIsSpace).reverse.dropWhile pyIsSpace).reverse

/-- `str.strip()`. -/
def pyStrip (s : String) : String :=
  String.mk (pyStripList s.data)

/-- `str.split(sep)` for a one-character separator, keeping empty fields
(Python's behaviour for an explicit separator): `"".split(c) = [""]`. -/
def splitOnCharList (sep : Char) : List Char → List (List Char)
  | [] => [[]]
  | c :: rest =>
    let r := splitOnCharList sep rest
    if c = sep then [] :: r
    else
      match r with
      | g :: gs => (c :: g) :: gs
      | [] => [[c]]

/-- Maximal runs of characters agreeing on the predicate `p`, in order.
`re.findall(r"\b\w+\b|\W+", s)` returns exactly these runs for
`p = isWordChar` (the alternation matches a maximal `\w`-run — the `\b`
anchors hold exactly at maximal-run edges — or a maximal `\W`-run), and
`str.split()` is the non-space runs for `p = pyIsSpace`. -/
def chunkRuns (p : Char → Bool) : List Char → List (List Char)
  | [] => []
  | c :: rest =>
    match chunkRuns p rest with
    | [] => [[c]]
    | [] :: gs => [c] :: [] :: gs
    | (d :: ds) :: gs =>
      if p c = p d then (c :: d :: ds) :: gs
      else [c] :: (d :: ds) :: gs

/-- `str.split()` (no argument): maximal non-whitespace runs, empties dropped. -/
def pySplitWs (s : String) : List String :=
  ((chunkRuns pyIsSpace s.data).filter fun g =>
    match g with
    | c :: _ => !pyIsSpace c
    | [] => false).map String.mk

/-- `str.replace(pat, rep)` (leftmost, non-overlapping, scan resumes after the
replacement) for a non-empty pattern; the fuel is the string length, which the
scan never exhausts since every step consumes at least one character. -/
def strReplaceList (pat rep : List Char) : Nat → List Char → List Char
  | _, [] => []
  | 0, s => s
  | fuel + 1, c :: rest =>
    if pat.isPrefixOf (c :: rest) then
      rep ++ strReplaceList pat rep fuel ((c :: rest).drop pat.length)
    else c :: strReplaceList pat rep fuel rest

/-- `s.replace(pat, rep)`. -/
def strReplace (s pat rep : String) : String :=
  String.mk (strReplaceList pat.data rep.data s.data.length s.data)

/-- `s.startswith(pre)`. -/
def pyStartsWith (s pre : String) : Bool :=
  pre.data.isPrefixOf s.data

/-! ## difflib.SequenceMatcher(None, a, b).ratio()

CPython's `difflib` with `isjunk=None`: `b2j` maps an element to its ascending
positions in `b`, dropping "popular" elements when `len(b) ≥ 200` (autojunk);
`find_longest_match` runs the j2len dynamic program and then extends the best
block over equal characters (the junk set `bjunk` is empty since
`isjunk=None`, so the two junk extension loops never fire and are omitted);
`ratio` is `2·M/T` where `M` sums the sizes of the recursively collected
matching blocks and `T` the two lengths. -/

/-- autojunk: an element of `b` is popular when `len(b) ≥ 200` and it occurs
more than `len(b) // 100 + 1` times. -/
def bPopular (b : List Char) (c : Char) : Bool :=
  decide (200 ≤ b.length) && decide (b.length / 100 + 1 < b.count c)

/-- `b2j[c]`: ascending positions of `c` in `b`, absent for popular elements. -/
def b2j (b : List Char) (c : Char) : List Nat :=
  if bPopular b c then []
  else (List.range b.length).filter fun j => b.getD j c == c

/-- Lookup in the previous j2len row (a missing key reads as 0). -/
def j2lenGet (row : List (Nat × Nat)) (k : Nat) : Nat :=
  match row.find? (fun p => p.1 == k) with
  | some p => p.2
  | none => 0

/-- One row (one value of `i`) of the `find_longest_match` dynamic program:
fold over the in-window positions `j` of `a[i]` in `b`, reading the previous
row and building the new one, improving the best block on strictly larger `k`. -/
def flmRow (oldRow : List (Nat × Nat)) (i : Nat) (best : Nat × Nat × Nat)
    (js : List Nat) : (Nat × Nat × Nat) × List (Nat × Nat) :=
  js.foldl
    (fun acc j =>
      let k := (if j = 0 then 0 else j2lenGet oldRow (j - 1)) + 1
      let best' := if acc.1.2.2 < k then (i + 1 - k, j + 1 - k, k) else acc.1
      (best', acc.2 ++ [(j, k)]))
    (best, [])

/-- The j2len dynamic program of `find_longest_match` over the window
`a[alo:ahi]`, `b[blo:bhi]`. -/
def flmLoop (a b : List Char) (alo ahi blo bhi : Nat) : Nat × Nat × Nat :=
  (((List.range (ahi - alo)).map (· + alo)).foldl
    (fun (acc : (Nat × Nat × Nat) × List (Nat × Nat)) i =>
      let js := ((b2j b (a.getD i ' ')).takeWhile fun j => decide (j < bhi)).filter
        fun j => decide (blo ≤ j)
      flmRow acc.2 i acc.1 js)
    ((alo, blo, 0), [])).1

/-- The first extension loop: grow the block downwards over equal characters
(`bjunk` is empty, so the `not isbjunk` conjunct always holds). -/
def extendLower (a b : List Char) (alo blo : Nat) :
    Nat → Nat × Nat × Nat → Nat × Nat × Nat
  | 0, st => st
  | fuel + 1, (bi, bj, bs) =>
    if alo < bi ∧ blo < bj ∧ a.getD (bi - 1) ' ' = b.getD (bj - 1) ' ' then
      extendLower a b alo blo fuel (bi - 1, bj - 1, bs + 1)
    else (bi, bj, bs)

/-- The second extension loop: grow the block upwards over equal characters. -/
def extendUpper (a b : List Char) (ahi bhi : Nat) :
    Nat → Nat × Nat × Nat → Nat × Nat × Nat
  | 0, st => st
  | fuel + 1, (bi, bj, bs) =>
    if bi + bs < ahi ∧ bj + bs < bhi ∧ a.getD (bi + bs) ' ' = b.getD (bj + bs) ' ' then
      extendUpper a b ahi bhi fuel (bi, bj, bs + 1)
    else (bi, bj, bs)

/-- `SequenceMatcher.find_longest_match(alo, ahi, blo, bhi)` (with an empty
junk set, so the two junk extension loops are identities and are omitted). -/
def findLongestMatch (a b : List Char) (alo ahi blo bhi : Nat) : Nat × Nat × Nat :=
  let m := flmLoop a b alo ahi blo bhi
  let m := extendLower a b alo blo m.1 m
  extendUpper a b ahi bhi ahi m

/-- Total size of the matching blocks `get_matching_blocks` collects from the
window (the queue order does not change the sum).  Each recursive window is
strictly smaller, so fuel `len(a)+len(b)+1` is never exhausted. -/
def matchTotal (a b : List Char) : Nat → Nat → Nat → Nat → Nat → Nat
  | 0, _, _, _, _ => 0
  | fuel + 1, alo, ahi, blo, bhi =>
    let m := findLongestMatch a b alo ahi blo bhi
    if m.2.2 = 0 then 0
    else
      matchTotal a b fuel alo m.1 blo m.2.1 + m.2.2 +
        matchTotal a b fuel (m.1 + m.2.2) ahi (m.2.1 + m.2.2) bhi

/-- `difflib.SequenceMatcher(None, a, b).ratio()` as an exact rational. -/
def seqRatio (sa sb : String) : ℚ :=
  let a := sa.data
  let b := sb.data
  let t := a.length + b.length
  if t = 0 then 1
  else 2 * (matchTotal a b (t + 1) 0 a.length 0 b.length : ℚ) / t

/-! ## Phonetic Encoder (`Hazer.soundex`, `Hazer.metaphone_simple`) -/

/-- The Soundex digit classes of `Hazer.soundex`. -/
def soundexMapping (c : Char) : Option Char :=
  if c = 'B' ∨ c = 'F' ∨ c = 'P' ∨ c = 'V' then some '1'
  else if c = 'C' ∨ c = 'G' ∨ c = 'J' ∨ c = 'K' ∨ c = 'Q' ∨ c = 'S' ∨ c = 'X' ∨ c = 'Z' then
    some '2'
  else if c = 'D' ∨ c = 'T' then some '3'
  else if c = 'L' then some '4'
  else if c = 'M' ∨ c = 'N' then some '5'
  else if c = 'R' then some '6'
  else none

/-- `Hazer.soundex`: keep the first (uppercased) letter, append the digit
class of each later letter when it differs from the last appended character,
pad with `"0000"` and truncate to 4.  The accumulator is kept reversed so the
last appended character is its head; the result is reversed back. -/
def soundex (word : String) : String :=
  if word.data = [] then "0000"
  else
    match (pyUpperStr word).data with
    | [] => "0000"
    | c :: rest =>
      let codeRev := rest.foldl
        (fun acc ch =>
          match soundexMapping ch with
          | some d =>
            match acc with
            | last :: _ => if last ≠ d then d :: acc else acc
            | [] => [d]
          | none => acc)
        [c]
      String.mk ((codeRev.reverse ++ ['0', '0', '0', '0']).take 4)

/-- `Hazer.metaphone_simple`: uppercase, normalise the digraphs
`PH`,`GH`→`F`, `CK`→`K`, `SCH`→`SK`, then emit a vowel only while nothing has
been emitted and a consonant only when it differs from the immediately
preceding character (`prev_char`, initially the empty string, modelled as
`Option Char` starting at `none`); truncate to 6. -/
def metaphone_simple (word : String) : String :=
  if word.data = [] then ""
  else
    let w := strReplace (strReplace (strReplace (strReplace
      (pyUpperStr word) "PH" "F") "GH" "F") "CK" "K") "SCH" "SK"
    let step := fun (acc : List Char × Option Char) c =>
      if c = 'A' ∨ c = 'E' ∨ c = 'I' ∨ c = 'O' ∨ c = 'U' then
        (if acc.1 = [] then acc.1 ++ [c] else acc.1, some c)
      else
        (if some c ≠ acc.2 then acc.1 ++ [c] else acc.1, some c)
    String.mk ((w.data.foldl step ([], none)).1.take 6)

/-! ## Similarity Scorer (`Hazer.phonetic_distance`) -/

/-- `Hazer.phonetic_distance`: lowercase both words, combine the Soundex-code
ratio, metaphone-code ratio and raw string ratio (weights 0.4/0.4/0.2), and
subtract a length penalty weighted 0.1. -/
def phonetic_distance (word1 word2 : String) : ℚ :=
  let w1 := pyLowerStr word1
  let w2 := pyLowerStr word2
  let soundex_sim := seqRatio (soundex w1) (soundex w2)
  let metaphone_sim := seqRatio (metaphone_simple w1) (metaphone_simple w2)
  let string_sim := seqRatio w1 w2
  let len_penalty : ℚ :=
    |((w1.length : ℚ) - (w2.length : ℚ))| / (max (max w1.length w2.length) 1 : ℚ)
  1 - ((soundex_sim * 0.4 + metaphone_sim * 0.4 + string_sim * 0.2) - len_penalty * 0.1)

/-! ## Embedded fallback word lists (`Hazer._get_builtin_wordlist`, lines
194-1449): the static `sample_words` data tables, transcribed verbatim. -/

def sampleWordsEnglish : List String := [
  "hello",
  "world",
  "computer",
  "language",
  "phone",
  "house",
  "water",
  "fire",
  "tree",
  "mountain",
  "river",
  "ocean",
  "sky",
  "sun",
  "moon",
  "star",
  "book",
  "pen",
  "paper",
  "table",
  "chair",
  "window",
  "door",
  "car",
  "bicycle",
  "airplane",
  "train",
  "ship",
  "bridge",
  "road",
  "city",
  "town",
  "friend",
  "family",
  "mother",
  "father",
  "brother",
  "sister",
  "child",
  "baby",
  "dog",
  "cat",
  "bird",
  "fish",
  "horse",
  "cow",
  "sheep",
  "chicken",
  "apple",
  "orange",
  "banana",
  "grape",
  "strawberry",
  "bread",
  "milk",
  "cheese",
  "head",
  "eye",
  "nose",
  "mouth",
  "ear",
  "hand",
  "foot",
  "arm",
  "leg",
  "finger",
  "heart",
  "brain",
  "stomach",
  "back",
  "shoulder",
  "knee",
  "elbow",
  "neck",
  "red",
  "blue",
  "green",
  "yellow",
  "black",
  "white",
  "purple",
  "orange",
  "pink",
  "brown",
  "gray",
  "silver",
  "gold",
  "violet",
  "turquoise",
  "crimson",
  "one",
  "two",
  "three",
  "four",
  "five",
  "six",
  "seven",
  "eight",
  "nine",
  "ten",
  "potato",
  "tomato",
  "carrot",
  "onion",
  "garlic",
  "pepper",
  "salt",
  "sugar",
  "coffee",
  "tea",
  "beer",
  "wine",
  "juice",
  "soda",
  "chocolate",
  "cake",
  "pizza",
  "hamburger",
  "sandwich",
  "soup",
  "salad",
  "rice",
  "pasta",
  "meat",
  "rain",
  "snow",
  "wind",
  "storm",
  "cloud",
  "sunshine",
  "thunder",
  "lightning",
  "hot",
  "cold",
  "warm",
  "cool",
  "wet",
  "dry",
  "humid",
  "freezing",
  "forest",
  "desert",
  "beach",
  "island",
  "valley",
  "hill",
  "lake",
  "pond",
  "flower",
  "grass",
  "leaf",
  "branch",
  "root",
  "seed",
  "garden",
  "park",
  "internet",
  "email",
  "website",
  "software",
  "hardware",
  "keyboard",
  "mouse",
  "screen",
  "smartphone",
  "tablet",
  "laptop",
  "desktop",
  "printer",
  "camera",
  "video",
  "photo",
  "happy",
  "sad",
  "angry",
  "excited",
  "nervous",
  "calm",
  "peaceful",
  "stressed",
  "beautiful",
  "ugly",
  "smart",
  "stupid",
  "funny",
  "serious",
  "kind",
  "mean",
  "big",
  "small",
  "tall",
  "short",
  "fat",
  "thin",
  "old",
  "young",
  "new",
  "ancient",
  "fast",
  "slow",
  "strong",
  "weak",
  "rich",
  "poor",
  "expensive",
  "cheap",
  "run",
  "walk",
  "jump",
  "swim",
  "fly",
  "drive",
  "ride",
  "climb",
  "fall",
  "stand",
  "sit",
  "sleep",
  "wake",
  "eat",
  "drink",
  "cook",
  "clean",
  "wash",
  "build",
  "break",
  "read",
  "write",
  "speak",
  "listen",
  "see",
  "hear",
  "touch",
  "smell",
  "taste",
  "love",
  "hate",
  "like",
  "want",
  "need",
  "have",
  "give",
  "take",
  "buy",
  "sell"
]

def sampleWordsSpanish : List String := [
  "hola",
  "mundo",
  "computadora",
  "idioma",
  "teléfono",
  "casa",
  "agua",
  "fuego",
  "árbol",
  "montaña",
  "río",
  "océano",
  "cielo",
  "sol",
  "luna",
  "estrella",
  "libro",
  "pluma",
  "papel",
  "mesa",
  "silla",
  "ventana",
  "puerta",
  "coche",
  "bicicleta",
  "avión",
  "tren",
  "barco",
  "puente",
  "carretera",
  "ciudad",
  "pueblo",
  "amigo",
  "familia",
  "madre",
  "padre",
  "hermano",
  "hermana",
  "niño",
  "bebé",
  "perro",
  "gato",
  "pájaro",
  "pez",
  "caballo",
  "vaca",
  "oveja",
  "pollo",
  "manzana",
  "naranja",
  "plátano",
  "uva",
  "fresa",
  "pan",
  "leche",
  "queso",
  "cabeza",
  "ojo",
  "nariz",
  "boca",
  "oreja",
  "mano",
  "pie",
  "brazo",
  "pierna",
  "dedo",
  "corazón",
  "cerebro",
  "estómago",
  "espalda",
  "hombro",
  "rodilla",
  "codo",
  "cuello",
  "rojo",
  "azul",
  "verde",
  "amarillo",
  "negro",
  "blanco",
  "morado",
  "naranja",
  "rosa",
  "marrón",
  "gris",
  "plata",
  "oro",
  "violeta",
  "turquesa",
  "carmesí",
  "uno",
  "dos",
  "tres",
  "cuatro",
  "cinco",
  "seis",
  "siete",
  "ocho",
  "nueve",
  "diez",
  "papa",
  "tomate",
  "zanahoria",
  "cebolla",
  "ajo",
  "pimienta",
  "sal",
  "azúcar",
  "café",
  "té",
  "cerveza",
  "vino",
  "jugo",
  "refresco",
  "chocolate",
  "pastel",
  "pizza",
  "hamburguesa",
  "sándwich",
  "sopa",
  "ensalada",
  "arroz",
  "pasta",
  "carne",
  "lluvia",
  "nieve",
  "viento",
  "tormenta",
  "nube",
  "sol",
  "trueno",
  "rayo",
  "caliente",
  "frío",
  "tibio",
  "fresco",
  "mojado",
  "seco",
  "húmedo",
  "helado",
  "bosque",
  "desierto",
  "playa",
  "isla",
  "valle",
  "colina",
  "lago",
  "estanque",
  "flor",
  "hierba",
  "hoja",
  "rama",
  "raíz",
  "semilla",
  "jardín",
  "parque",
  "feliz",
  "triste",
  "enojado",
  "emocionado",
  "nervioso",
  "tranquilo",
  "pacífico",
  "estresado",
  "hermoso",
  "feo",
  "inteligente",
  "tonto",
  "divertido",
  "serio",
  "amable",
  "malo",
  "grande",
  "pequeño",
  "alto",
  "bajo",
  "gordo",
  "delgado",
  "viejo",
  "joven",
  "nuevo",
  "antiguo",
  "rápido",
  "lento",
  "fuerte",
  "débil",
  "rico",
  "pobre",
  "caro",
  "barato",
  "correr",
  "caminar",
  "saltar",
  "nadar",
  "volar",
  "conducir",
  "montar",
  "subir",
  "caer",
  "estar",
  "amar",
  "odiar",
  "gustar",
  "querer",
  "necesitar",
  "tener",
  "dar",
  "tomar",
  "comprar",
  "vender"
]

def sampleWordsFrench : List String := [
  "bonjour",
  "monde",
  "ordinateur",
  "langue",
  "téléphone",
  "maison",
  "eau",
  "feu",
  "arbre",
  "montagne",
  "rivière",
  "océan",
  "ciel",
  "soleil",
  "lune",
  "étoile",
  "livre",
  "stylo",
  "papier",
  "table",
  "chaise",
  "fenêtre",
  "porte",
  "voiture",
  "bicyclette",
  "avion",
  "train",
  "bateau",
  "pont",
  "route",
  "ville",
  "village",
  "ami",
  "famille",
  "mère",
  "père",
  "frère",
  "sœur",
  "enfant",
  "bébé",
  "chien",
  "chat",
  "oiseau",
  "poisson",
  "cheval",
  "vache",
  "mouton",
  "poulet",
  "pomme",
  "orange",
  "banane",
  "raisin",
  "fraise",
  "pain",
  "lait",
  "fromage",
  "tête",
  "œil",
  "nez",
  "bouche",
  "oreille",
  "main",
  "pied",
  "bras",
  "jambe",
  "doigt",
  "cœur",
  "cerveau",
  "estomac",
  "dos",
  "épaule",
  "genou",
  "coude",
  "cou",
  "rouge",
  "bleu",
  "vert",
  "jaune",
  "noir",
  "blanc",
  "violet",
  "orange",
  "rose",
  "brun",
  "gris",
  "argent",
  "or",
  "violette",
  "turquoise",
  "cramoisi",
  "un",
  "deux",
  "trois",
  "quatre",
  "cinq",
  "six",
  "sept",
  "huit",
  "neuf",
  "dix",
  "café",
  "thé",
  "bière",
  "vin",
  "jus",
  "soda",
  "chocolat",
  "gâteau",
  "pizza",
  "hamburger",
  "sandwich",
  "soupe",
  "salade",
  "riz",
  "pâtes",
  "viande",
  "pluie",
  "neige",
  "vent",
  "orage",
  "nuage",
  "soleil",
  "tonnerre",
  "éclair",
  "chaud",
  "froid",
  "tiède",
  "frais",
  "mouillé",
  "sec",
  "humide",
  "gelé",
  "forêt",
  "désert",
  "plage",
  "île",
  "vallée",
  "colline",
  "lac",
  "étang",
  "fleur",
  "herbe",
  "feuille",
  "branche",
  "racine",
  "graine",
  "jardin",
  "parc",
  "heureux",
  "triste",
  "fâché",
  "excité",
  "nerveux",
  "calme",
  "paisible",
  "stressé",
  "beau",
  "laid",
  "intelligent",
  "stupide",
  "drôle",
  "sérieux",
  "gentil",
  "méchant",
  "grand",
  "petit",
  "haut",
  "court",
  "gros",
  "mince",
  "vieux",
  "jeune",
  "nouveau",
  "ancien",
  "rapide",
  "lent",
  "fort",
  "faible",
  "riche",
  "pauvre",
  "cher",
  "bon marché",
  "courir",
  "marcher",
  "sauter",
  "nager",
  "voler",
  "conduire",
  "monter",
  "grimper",
  "tomber",
  "aimer",
  "détester",
  "aimer",
  "vouloir",
  "avoir besoin",
  "avoir",
  "donner",
  "prendre",
  "acheter",
  "vendre"
]

def sampleWordsGerman : List String := [
  "hallo",
  "welt",
  "computer",
  "sprache",
  "telefon",
  "haus",
  "wasser",
  "feuer",
  "baum",
  "berg",
  "fluss",
  "ozean",
  "himmel",
  "sonne",
  "mond",
  "stern",
  "buch",
  "stift",
  "papier",
  "tisch",
  "stuhl",
  "fenster",
  "tür",
  "auto",
  "fahrrad",
  "flugzeug",
  "zug",
  "schiff",
  "brücke",
  "straße",
  "stadt",
  "dorf",
  "freund",
  "familie",
  "mutter",
  "vater",
  "bruder",
  "schwester",
  "kind",
  "baby",
  "hund",
  "katze",
  "vogel",
  "fisch",
  "pferd",
  "kuh",
  "schaf",
  "huhn",
  "apfel",
  "orange",
  "banane",
  "traube",
  "erdbeere",
  "brot",
  "milch",
  "käse",
  "kopf",
  "auge",
  "nase",
  "mund",
  "ohr",
  "hand",
  "fuß",
  "arm",
  "bein",
  "finger",
  "herz",
  "gehirn",
  "magen",
  "rücken",
  "schulter",
  "knie",
  "ellbogen",
  "hals",
  "rot",
  "blau",
  "grün",
  "gelb",
  "schwarz",
  "weiß",
  "lila",
  "orange",
  "rosa",
  "braun",
  "grau",
  "silber",
  "gold",
  "violett",
  "türkis",
  "karmesin",
  "eins",
  "zwei",
  "drei",
  "vier",
  "fünf",
  "sechs",
  "sieben",
  "acht",
  "neun",
  "zehn",
  "kaffee",
  "tee",
  "bier",
  "wein",
  "saft",
  "limonade",
  "schokolade",
  "kuchen",
  "regen",
  "schnee",
  "wind",
  "sturm",
  "wolke",
  "sonnenschein",
  "donner",
  "blitz",
  "heiß",
  "kalt",
  "warm",
  "kühl",
  "nass",
  "trocken",
  "feucht",
  "gefroren",
  "wald",
  "wüste",
  "strand",
  "insel",
  "tal",
  "hügel",
  "see",
  "teich",
  "blume",
  "gras",
  "blatt",
  "ast",
  "wurzel",
  "samen",
  "garten",
  "park",
  "glücklich",
  "traurig",
  "wütend",
  "aufgeregt",
  "nervös",
  "ruhig",
  "friedlich",
  "gestresst",
  "schön",
  "hässlich",
  "klug",
  "dumm",
  "lustig",
  "ernst",
  "freundlich",
  "gemein",
  "groß",
  "klein",
  "hoch",
  "kurz",
  "dick",
  "dünn",
  "alt",
  "jung",
  "neu",
  "alt",
  "schnell",
  "langsam",
  "stark",
  "schwach",
  "reich",
  "arm",
  "teuer",
  "billig",
  "laufen",
  "gehen",
  "springen",
  "schwimmen",
  "fliegen",
  "fahren",
  "reiten",
  "klettern",
  "lieben",
  "hassen",
  "mögen",
  "wollen",
  "brauchen",
  "haben",
  "geben",
  "nehmen",
  "kaufen",
  "verkaufen"
]

def sampleWordsItalian : List String := [
  "ciao",
  "mondo",
  "computer",
  "lingua",
  "telefono",
  "casa",
  "acqua",
  "fuoco",
  "albero",
  "montagna",
  "fiume",
  "oceano",
  "cielo",
  "sole",
  "luna",
  "stella",
  "libro",
  "penna",
  "carta",
  "tavolo",
  "sedia",
  "finestra",
  "porta",
  "macchina",
  "bicicletta",
  "aereo",
  "treno",
  "nave",
  "ponte",
  "strada",
  "città",
  "paese",
  "amico",
  "famiglia",
  "madre",
  "padre",
  "fratello",
  "sorella",
  "bambino",
  "neonato",
  "cane",
  "gatto",
  "uccello",
  "pesce",
  "cavallo",
  "mucca",
  "pecora",
  "pollo",
  "mela",
  "arancia",
  "banana",
  "uva",
  "fragola",
  "pane",
  "latte",
  "formaggio",
  "testa",
  "occhio",
  "naso",
  "bocca",
  "orecchio",
  "mano",
  "piede",
  "braccio",
  "gamba",
  "dito",
  "cuore",
  "cervello",
  "stomaco",
  "schiena",
  "spalla",
  "ginocchio",
  "gomito",
  "collo",
  "rosso",
  "blu",
  "verde",
  "giallo",
  "nero",
  "bianco",
  "viola",
  "arancione",
  "rosa",
  "marrone",
  "grigio",
  "argento",
  "oro",
  "violetto",
  "turchese",
  "cremisi",
  "uno",
  "due",
  "tre",
  "quattro",
  "cinque",
  "sei",
  "sette",
  "otto",
  "nove",
  "dieci",
  "caffè",
  "tè",
  "birra",
  "vino",
  "succo",
  "soda",
  "cioccolato",
  "torta",
  "pioggia",
  "neve",
  "vento",
  "tempesta",
  "nuvola",
  "sole",
  "tuono",
  "fulmine",
  "caldo",
  "freddo",
  "tiepido",
  "fresco",
  "bagnato",
  "secco",
  "umido",
  "gelato",
  "foresta",
  "deserto",
  "spiaggia",
  "isola",
  "valle",
  "collina",
  "lago",
  "stagno",
  "fiore",
  "erba",
  "foglia",
  "ramo",
  "radice",
  "seme",
  "giardino",
  "parco",
  "felice",
  "triste",
  "arrabbiato",
  "eccitato",
  "nervoso",
  "calmo",
  "pacifico",
  "stressato",
  "bello",
  "brutto",
  "intelligente",
  "stupido",
  "divertente",
  "serio",
  "gentile",
  "cattivo",
  "grande",
  "piccolo",
  "alto",
  "basso",
  "grasso",
  "magro",
  "vecchio",
  "giovane",
  "nuovo",
  "antico",
  "veloce",
  "lento",
  "forte",
  "debole",
  "ricco",
  "povero",
  "costoso",
  "economico",
  "correre",
  "camminare",
  "saltare",
  "nuotare",
  "volare",
  "guidare",
  "cavalcare",
  "arrampicare",
  "amare",
  "odiare",
  "piacere",
  "volere",
  "aver bisogno",
  "avere",
  "dare",
  "prendere",
  "comprare",
  "vendere"
]

def sampleWordsPortuguese : List String := [
  "olá",
  "mundo",
  "computador",
  "idioma",
  "telefone",
  "casa",
  "água",
  "fogo",
  "árvore",
  "montanha",
  "rio",
  "oceano",
  "céu",
  "sol",
  "lua",
  "estrela",
  "livro",
  "caneta",
  "papel",
  "mesa",
  "cadeira",
  "janela",
  "porta",
  "carro",
  "bicicleta",
  "avião",
  "trem",
  "navio",
  "ponte",
  "estrada",
  "cidade",
  "vila",
  "amigo",
  "família",
  "mãe",
  "pai",
  "irmão",
  "irmã",
  "criança",
  "bebê",
  "cachorro",
  "gato",
  "pássaro",
  "peixe",
  "cavalo",
  "vaca",
  "ovelha",
  "galinha",
  "maçã",
  "laranja",
  "banana",
  "uva",
  "morango",
  "pão",
  "leite",
  "queijo",
  "cabeça",
  "olho",
  "nariz",
  "boca",
  "orelha",
  "mão",
  "pé",
  "braço",
  "perna",
  "dedo",
  "coração",
  "cérebro",
  "estômago",
  "costas",
  "ombro",
  "joelho",
  "cotovelo",
  "pescoço",
  "vermelho",
  "azul",
  "verde",
  "amarelo",
  "preto",
  "branco",
  "roxo",
  "laranja",
  "rosa",
  "marrom",
  "cinza",
  "prata",
  "ouro",
  "violeta",
  "turquesa",
  "carmesim",
  "um",
  "dois",
  "três",
  "quatro",
  "cinco",
  "seis",
  "sete",
  "oito",
  "nove",
  "dez",
  "café",
  "chá",
  "cerveja",
  "vinho",
  "suco",
  "refrigerante",
  "chocolate",
  "bolo",
  "chuva",
  "neve",
  "vento",
  "tempestade",
  "nuvem",
  "sol",
  "trovão",
  "relâmpago",
  "quente",
  "frio",
  "morno",
  "fresco",
  "molhado",
  "seco",
  "úmido",
  "congelado",
  "floresta",
  "deserto",
  "praia",
  "ilha",
  "vale",
  "colina",
  "lago",
  "lagoa",
  "flor",
  "grama",
  "folha",
  "galho",
  "raiz",
  "semente",
  "jardim",
  "parque",
  "feliz",
  "triste",
  "bravo",
  "animado",
  "nervoso",
  "calmo",
  "pacífico",
  "estressado",
  "bonito",
  "feio",
  "inteligente",
  "estúpido",
  "engraçado",
  "sério",
  "gentil",
  "mau",
  "grande",
  "pequeno",
  "alto",
  "baixo",
  "gordo",
  "magro",
  "velho",
  "jovem",
  "novo",
  "antigo",
  "rápido",
  "lento",
  "forte",
  "fraco",
  "rico",
  "pobre",
  "caro",
  "barato",
  "correr",
  "andar",
  "pular",
  "nadar",
  "voar",
  "dirigir",
  "andar",
  "escalar",
  "amar",
  "odiar",
  "gostar",
  "querer",
  "precisar",
  "ter",
  "dar",
  "tomar",
  "comprar",
  "vender"
]


/-- The `sample_words` dictionary of `_get_builtin_wordlist`. -/
def sample_words : List (String × List String) :=
  [("english", sampleWordsEnglish), ("spanish", sampleWordsSpanish),
   ("french", sampleWordsFrench), ("german", sampleWordsGerman),
   ("italian", sampleWordsItalian), ("portuguese", sampleWordsPortuguese)]

/-! ## External collaborators and engine state -/

/-- The external collaborators of the engine, as the environment of every
operation.  `none` models the Python call raising an exception (every call
site wraps the call in a broad `try/except`):
* `freqFetch url` / `wordlistFetch url` — `requests.get(url).text` for the
  frequency-list tier and the general word-list tier;
* `googleTranslate word source target` — `GoogleTranslator(source, target).translate(word)`;
* `composeText text lang` — the Anthropic composition call of
  `generate_final_text` (the prompt is a fixed function of `text` and the
  language, so the call is abstracted on those). -/
structure World where
  freqFetch : String → Option String
  wordlistFetch : String → Option String
  googleTranslate : String → String → String → Option String
  composeText : String → String → Option String

/-- The mutable state of a `Hazer` instance: the per-language word-list cache
`self.word_lists` (a `dict`), as an association list looked up front-to-back. -/
structure HazerState where
  word_lists : List (String × List String)

/-- `dict` lookup (`language in self.word_lists` / indexing). -/
def lookupAssoc {α : Type} (l : List (String × α)) (k : String) : Option α :=
  match l.find? (fun p => p.1 == k) with
  | some p => some p.2
  | none => none

/-- `self.word_lists[language] = words`. -/
def cacheInsert (st : HazerState) (language : String) (words : List String) : HazerState :=
  ⟨(language, words) :: st.word_lists⟩

/-! ## Word List Provider (`load_word_list` and its tiers) -/

/-- The `freq_urls` table of `_try_frequency_lists`. -/
def freq_urls : List (String × String) :=
  [("english", "https://raw.githubusercontent.com/first20hours/google-10000-english/master/google-10000-english-no-swears.txt"),
   ("spanish", "https://raw.githubusercontent.com/hermitdave/FrequencyWords/master/content/2016/es/es_50k.txt"),
   ("french", "https://raw.githubusercontent.com/hermitdave/FrequencyWords/master/content/2016/fr/fr_50k.txt"),
   ("german", "https://raw.githubusercontent.com/hermitdave/FrequencyWords/master/content/2016/de/de_50k.txt"),
   ("italian", "https://raw.githubusercontent.com/hermitdave/FrequencyWords/master/content/2016/it/it_50k.txt"),
   ("portuguese", "https://raw.githubusercontent.com/hermitdave/FrequencyWords/master/content/2016/pt/pt_50k.txt"),
   ("dutch", "https://raw.githubusercontent.com/hermitdave/FrequencyWords/master/content/2016/nl/nl_50k.txt")]

/-- The `urls` table of `_try_online_wordlist`. -/
def online_urls : List (String × String) :=
  [("english", "https://raw.githubusercontent.com/dwyl/english-words/master/words_alpha.txt"),
   ("spanish", "https://raw.githubusercontent.com/MangoTheCat/spanish-words/master/spanish-words.txt"),
   ("french", "https://raw.githubusercontent.com/chrplr/openlexicon/master/datasets-info/Liste-de-mots-francais-Gutenberg/liste_de_mots_francais.txt"),
   ("german", "https://raw.githubusercontent.com/davidak/wortliste/master/wortliste.txt"),
   ("italian", "https://raw.githubusercontent.com/napolux/paroleitaliane/master/paroleitaliane/280000_parole_italiane.txt"),
   ("portuguese", "https://raw.githubusercontent.com/pythonprobr/palavras/master/palavras.txt")]

/-- The line-parsing loop of `_try_frequency_lists`: split the stripped
response on newlines; per line take the first whitespace-delimited token,
strip and lowercase it, and keep it when it is 1-25 characters and purely
alphabetic. -/
def parseFreqText (text : String) : List String :=
  let lines := (splitOnCharList '\n' (pyStrip text).data).map String.mk
  lines.foldl
    (fun words line =>
      match pySplitWs line with
      | [] => words
      | p :: _ =>
        let word := pyLowerStr (pyStrip p)
        if 1 ≤ word.length ∧ word.length ≤ 25 ∧ (∀ c ∈ word.data, pyIsAlpha c) then
          words ++ [word]
        else words)
    []

/-- `Hazer._try_frequency_lists`: an unknown language or a failed fetch
yields `[]` (the broad `except` clause). -/
def try_frequency_lists (w : World) (language : String) : List String :=
  match lookupAssoc freq_urls (pyLowerStr language) with
  | none => []
  | some url =>
    match w.freqFetch url with
    | none => []
    | some text => parseFreqText text

/-- The filtering comprehension of `_try_online_wordlist`: split the stripped
response on newlines, keep the lines whose stripped form is non-empty,
1-25 characters and purely alphabetic, lowercased. -/
def parseOnlineText (text : String) : List String :=
  (((splitOnCharList '\n' (pyStrip text).data).map String.mk).filter fun l =>
    let t := pyStrip l
    decide (t ≠ "" ∧ 1 ≤ t.length ∧ t.length ≤ 25 ∧ (∀ c ∈ t.data, pyIsAlpha c))).map
    fun l => pyLowerStr (pyStrip l)

/-- `Hazer._try_online_wordlist`. -/
def try_online_wordlist (w : World) (language : String) : List String :=
  match lookupAssoc online_urls (pyLowerStr language) with
  | none => []
  | some url =>
    match w.wordlistFetch url with
    | none => []
    | some text => parseOnlineText text

/-- `Hazer._get_builtin_wordlist`: the embedded fallback tier; raises
`ValueError` (modelled as `Except.error`) when the language has no embedded
list. -/
def get_builtin_wordlist (language : String) : Except String (List String) :=
  match lookupAssoc sample_words (pyLowerStr language) with
  | none => Except.error ("Language " ++ language ++ " not supported")
  | some ws => Except.ok ws

/-- `Hazer.load_word_list`: cached result, else tier 1, else tier 2 (each
cached on success), else the embedded fallback — whose result is returned
directly, WITHOUT being stored in the cache (`return self._get_builtin_wordlist(language)`). -/
def load_word_list (w : World) (st : HazerState) (language : String) :
    Except String (List String × HazerState) :=
  match lookupAssoc st.word_lists language with
  | some ws => Except.ok (ws, st)
  | none =>
    let words := try_frequency_lists w language
    if words ≠ [] then Except.ok (words, cacheInsert st language words)
    else
      let words := try_online_wordlist w language
      if words ≠ [] then Except.ok (words, cacheInsert st language words)
      else
        match get_builtin_wordlist language with
        | Except.ok ws => Except.ok (ws, st)
        | Except.error e => Except.error e

/-! ## Nearest-Match Finder (`Hazer.find_most_similar_word`) -/

/-- `Hazer.find_most_similar_word`: linear scan, skipping candidates that
case-insensitively equal the target when `force_fuzzy`; track the strictly
smallest distance (`best_distance` starts at `float("inf")`, modelled as
`none`, which every finite distance beats).  Returns the best match (the
initial `""` when nothing was scanned) and `1 - best_distance` (hence `none`
for `1 - inf`).  `fmsStep` is the body of the `for word in word_list` loop. -/
def fmsStep (target_word : String) (force_fuzzy : Bool) (acc : String × Option ℚ)
    (word : String) : String × Option ℚ :=
  if force_fuzzy && (pyLowerStr word == pyLowerStr target_word) then acc
  else
    let distance := phonetic_distance target_word word
    match acc.2 with
    | none => (word, some distance)
    | some bd => if distance < bd then (word, some distance) else acc

def find_most_similar_word (target_word : String) (word_list : List String)
    (force_fuzzy : Bool) : String × Option ℚ :=
  let acc := word_list.foldl (fmsStep target_word force_fuzzy) ("", none)
  (acc.1, acc.2.map fun d => 1 - d)

/-! ## Translation Collaborator shim (`Hazer.simple_translate`) -/

/-- The `lang_map` of `simple_translate`. -/
def lang_map : List (String × String) :=
  [("english", "en"), ("spanish", "es"), ("french", "fr"), ("german", "de"),
   ("italian", "it"), ("portuguese", "pt"), ("dutch", "nl")]

/-- The built-in bilingual dictionary of `simple_translate`'s `except` path. -/
def translationsTable : List ((String × String) × List (String × String)) :=
  [(("spanish", "french"),
    [("casa", "maison"), ("agua", "eau"), ("fuego", "feu"), ("árbol", "arbre"),
     ("libro", "livre"), ("amigo", "ami"), ("perro", "chien"), ("gato", "chat"),
     ("rojo", "rouge"), ("azul", "bleu"), ("verde", "vert"), ("grande", "grand")]),
   (("french", "spanish"),
    [("maison", "casa"), ("eau", "agua"), ("feu", "fuego"), ("arbre", "árbol"),
     ("livre", "libro"), ("ami", "amigo"), ("chien", "perro"), ("chat", "gato"),
     ("rouge", "rojo"), ("bleu", "azul"), ("vert", "verde"), ("grand", "grande")]),
   (("spanish", "italian"),
    [("casa", "casa"), ("agua", "acqua"), ("fuego", "fuoco"), ("árbol", "albero"),
     ("libro", "libro"), ("amigo", "amico"), ("perro", "cane"), ("gato", "gatto"),
     ("rojo", "rosso"), ("azul", "blu"), ("verde", "verde"), ("grande", "grande")]),
   (("italian", "spanish"),
    [("casa", "casa"), ("acqua", "agua"), ("fuoco", "fuego"), ("albero", "árbol"),
     ("libro", "libro"), ("amico", "amigo"), ("cane", "perro"), ("gatto", "gato"),
     ("rosso", "rojo"), ("blu", "azul"), ("verde", "verde"), ("grande", "grande")]),
   (("german", "french"),
    [("haus", "maison"), ("wasser", "eau"), ("feuer", "feu"), ("baum", "arbre"),
     ("buch", "livre"), ("freund", "ami"), ("hund", "chien"), ("katze", "chat"),
     ("rot", "rouge"), ("blau", "bleu"), ("grün", "vert"), ("groß", "grand")]),
   (("french", "german"),
    [("maison", "haus"), ("eau", "wasser"), ("feu", "feuer"), ("arbre", "baum"),
     ("livre", "buch"), ("ami", "freund"), ("chien", "hund"), ("chat", "katze"),
     ("rouge", "rot"), ("bleu", "blau"), ("vert", "grün"), ("grand", "groß")])]

/-- The failure marker `f"[untranslated: {word}]"`. -/
def untranslatedMarker (word : String) : String :=
  "[untranslated: " ++ word ++ "]"

/-- `Hazer.simple_translate`: try the `GoogleTranslator` call; on an
exception fall back to the built-in pair dictionary, else the
`"[untranslated: ...]"` marker. -/
def simple_translate (w : World) (word from_lang to_lang : String) : String :=
  let source := (lookupAssoc lang_map (pyLowerStr from_lang)).getD "auto"
  let target := (lookupAssoc lang_map (pyLowerStr to_lang)).getD "en"
  match w.googleTranslate word source target with
  | some result => result
  | none =>
    match translationsTable.find? fun p =>
        p.1.1 == pyLowerStr from_lang && p.1.2 == pyLowerStr to_lang with
    | some entry =>
      match lookupAssoc entry.2 (pyLowerStr word) with
      | some t => t
      | none => untranslatedMarker word
    | none => untranslatedMarker word

/-! ## Per-word transformations -/

/-- The result dict of `transform_direct_fuzzy`. -/
structure FuzzyResult where
  original_input : String
  lang_a : String
  lang_b : String
  step1_lang_b : String
  step2_final_lang_a : String
  direct_fuzzy_chain : String
  similarity_scores : List (Option ℚ)
  average_similarity : Option ℚ
  deriving Repr, DecidableEq

/-- The result dict of `transform_direct_translate`. -/
structure TranslateResult where
  original_input : String
  lang_a : String
  lang_b : String
  lang_b_match : String
  final_translation : String
  direct_chain : String
  similarity_score : Option ℚ
  deriving Repr, DecidableEq

/-- The result dict of `fuzzy_haze` (the hybrid per-word step). -/
structure HybridWordResult where
  original_input : String
  lang_a : String
  lang_b : String
  step1_fuzzy_lang_b : String
  step2_result : String
  method_used : String
  hybrid_chain : String
  fuzzy_similarity : Option ℚ
  final_similarity : Option ℚ
  deriving Repr, DecidableEq

/-- Option-respecting float average (both infinite-similarity cases collapse
to `none`); only used for the trace field `average_similarity`. -/
def optAvg : Option ℚ → Option ℚ → Option ℚ
  | some x, some y => some ((x + y) / 2)
  | _, _ => none

/-- `Hazer.transform_direct_fuzzy`: WORD_A → B (fuzzy) → A (fuzzy).
(The `raise` a failed word-list load propagates is the explicit `error`
arm; the pair returned by `find_most_similar_word` is read through its
projections.) -/
def transform_direct_fuzzy (w : World) (st : HazerState) (word lang_a lang_b : String) :
    Except String (FuzzyResult × HazerState) :=
  match load_word_list w st lang_a with
  | Except.error e => Except.error e
  | Except.ok (word_list_a, st) =>
    match load_word_list w st lang_b with
    | Except.error e => Except.error e
    | Except.ok (word_list_b, st) =>
      let matched_word_b := (find_most_similar_word word word_list_b true).1
      let similarity_b := (find_most_similar_word word word_list_b true).2
      let final_word_a := (find_most_similar_word matched_word_b word_list_a true).1
      let similarity_final := (find_most_similar_word matched_word_b word_list_a true).2
      let r : FuzzyResult :=
        { original_input := word, lang_a := lang_a, lang_b := lang_b,
          step1_lang_b := matched_word_b, step2_final_lang_a := final_word_a,
          direct_fuzzy_chain := word ++ " → " ++ matched_word_b ++ " → " ++ final_word_a,
          similarity_scores := [similarity_b, similarity_final],
          average_similarity := optAvg similarity_b similarity_final }
      Except.ok (r, st)

/-- `Hazer.transform_direct_translate`: WORD_A → B (fuzzy) → A (translate). -/
def transform_direct_translate (w : World) (st : HazerState) (word lang_a lang_b : String) :
    Except String (TranslateResult × HazerState) :=
  match load_word_list w st lang_b with
  | Except.error e => Except.error e
  | Except.ok (word_list_b, st) =>
    let matched_word_b := (find_most_similar_word word word_list_b true).1
    let similarity_b := (find_most_similar_word word word_list_b true).2
    let final_word := simple_translate w matched_word_b lang_b lang_a
    let r : TranslateResult :=
      { original_input := word, lang_a := lang_a, lang_b := lang_b,
        lang_b_match := matched_word_b, final_translation := final_word,
        direct_chain := word ++ " → " ++ matched_word_b ++ " → " ++ final_word,
        similarity_score := similarity_b }
    Except.ok (r, st)

/-- `Hazer.fuzzy_haze`: WORD_A → B (fuzzy) → A (translate), falling back to a
second fuzzy hop in vocabulary A when the translation starts with
`"[untranslated:"` or echoes the matched word unchanged. -/
def fuzzy_haze (w : World) (st : HazerState) (word lang_a lang_b : String) :
    Except String (HybridWordResult × HazerState) :=
  match load_word_list w st lang_a with
  | Except.error e => Except.error e
  | Except.ok (word_list_a, st) =>
    match load_word_list w st lang_b with
    | Except.error e => Except.error e
    | Except.ok (word_list_b, st) =>
      let matched_word_b := (find_most_similar_word word word_list_b true).1
      let similarity_b := (find_most_similar_word word word_list_b true).2
      let translated_word := simple_translate w matched_word_b lang_b lang_a
      if pyStartsWith translated_word "[untranslated:" || (translated_word == matched_word_b) then
        let final_word := (find_most_similar_word matched_word_b word_list_a true).1
        let similarity_final := (find_most_similar_word matched_word_b word_list_a true).2
        let r : HybridWordResult :=
          { original_input := word, lang_a := lang_a, lang_b := lang_b,
            step1_fuzzy_lang_b := matched_word_b, step2_result := final_word,
            method_used := "fuzzy_fallback",
            hybrid_chain := word ++ " → " ++ matched_word_b ++ " → " ++ final_word
              ++ " (fuzzy_fallback)",
            fuzzy_similarity := similarity_b, final_similarity := similarity_final }
        Except.ok (r, st)
      else
        let r : HybridWordResult :=
          { original_input := word, lang_a := lang_a, lang_b := lang_b,
            step1_fuzzy_lang_b := matched_word_b, step2_result := translated_word,
            method_used := "translate",
            hybrid_chain := word ++ " → " ++ matched_word_b ++ " → " ++ translated_word
              ++ " (translate)",
            fuzzy_similarity := similarity_b, final_similarity := some 1 }
        Except.ok (r, st)

/-! ## Sentence pipelines -/

/-- One entry of `word_details` in `haze`. -/
structure WordDetail where
  original : String
  transformed : String
  chain : String
  method : String
  deriving Repr, DecidableEq

/-- One entry of `word_details` in `hybrid_haze` (adds `fallback_used`). -/
structure HybridWordDetail where
  original : String
  transformed : String
  chain : String
  method : String
  fallback_used : String
  deriving Repr, DecidableEq

/-- The Sentence Result of `haze`. -/
structure SentenceResult where
  original_sentence : String
  transformed_sentence : String
  method : String
  language_route : String
  word_transformations : List WordDetail
  word_count : Nat
  deriving Repr, DecidableEq

/-- The Sentence Result of `hybrid_haze`. -/
structure HybridSentenceResult where
  original_sentence : String
  transformed_sentence : String
  method : String
  language_route : String
  word_transformations : List HybridWordDetail
  word_count : Nat
  deriving Repr, DecidableEq

/-- `re.findall(r"\b\w+\b|\W+", sentence)`: the maximal word-character runs
and maximal non-word runs of the sentence, in order (see `chunkRuns`). -/
def tokenize (sentence : String) : List String :=
  (chunkRuns isWordChar sentence.data).map String.mk

/-- `re.match(r"\w+", item)`: the token starts with a word character. -/
def isWordToken (item : String) : Bool :=
  match item.data with
  | [] => false
  | c :: _ => isWordChar c

/-- `Hazer.generate_final_text`: return the text unchanged when it has fewer
than 3 whitespace-delimited tokens, otherwise the composition collaborator's
answer, degrading to the unchanged text when that call raises. -/
def generate_final_text (w : World) (text lang_a : String) : String :=
  if (pySplitWs text).length < 3 then text
  else
    match w.composeText text lang_a with
    | some r => r
    | none => text

/-- The token loop of `Hazer.haze` (recursion over the token list; Python
appends to `transformed_words`/`word_details` in token order, which the
front-cons recursion reproduces). -/
def hazeTokens (w : World) (lang_a lang_b method : String) :
    HazerState → List String → Except String (List String × List WordDetail × HazerState)
  | st, [] => Except.ok ([], [], st)
  | st, item :: rest =>
    if isWordToken item then
      if method = "fuzzy" then
        match transform_direct_fuzzy w st item lang_a lang_b with
        | Except.error e => Except.error e
        | Except.ok (result, st) =>
          match hazeTokens w lang_a lang_b method st rest with
          | Except.error e => Except.error e
          | Except.ok (tw, wd, st) =>
            let d : WordDetail :=
              { original := item, transformed := result.step2_final_lang_a,
                chain := result.direct_fuzzy_chain, method := method }
            Except.ok (result.step2_final_lang_a :: tw, d :: wd, st)
      else
        match transform_direct_translate w st item lang_a lang_b with
        | Except.error e => Except.error e
        | Except.ok (result, st) =>
          match hazeTokens w lang_a lang_b method st rest with
          | Except.error e => Except.error e
          | Except.ok (tw, wd, st) =>
            let d : WordDetail :=
              { original := item, transformed := result.final_translation,
                chain := result.direct_chain, method := method }
            Except.ok (result.final_translation :: tw, d :: wd, st)
    else
      match hazeTokens w lang_a lang_b method st rest with
      | Except.error e => Except.error e
      | Except.ok (tw, wd, st) => Except.ok (item :: tw, wd, st)

/-- `Hazer.haze`: tokenize, transform each word token by the selected
strategy (`method == "fuzzy"` picks the fuzzy two-hop transform, anything
else the translate transform), rejoin all tokens in order, and run the
composition step. -/
def haze (w : World) (st : HazerState) (sentence lang_a lang_b method : String) :
    Except String (SentenceResult × HazerState) :=
  match hazeTokens w lang_a lang_b method st (tokenize sentence) with
  | Except.error e => Except.error e
  | Except.ok (transformed_words, word_details, st) =>
    let ts := generate_final_text w (String.join transformed_words) lang_a
    let r : SentenceResult :=
      { original_sentence := sentence, transformed_sentence := ts, method := method,
        language_route := lang_a ++ " → " ++ lang_b ++ " → " ++ lang_a,
        word_transformations := word_details, word_count := word_details.length }
    Except.ok (r, st)

/-- The token loop of `Hazer.hybrid_haze`. -/
def hybridTokens (w : World) (lang_a lang_b : String) :
    HazerState → List String →
    Except String (List String × List HybridWordDetail × HazerState)
  | st, [] => Except.ok ([], [], st)
  | st, item :: rest =>
    if isWordToken item then
      match fuzzy_haze w st item lang_a lang_b with
      | Except.error e => Except.error e
      | Except.ok (result, st) =>
        match hybridTokens w lang_a lang_b st rest with
        | Except.error e => Except.error e
        | Except.ok (tw, wd, st) =>
          let d : HybridWordDetail :=
            { original := item, transformed := result.step2_result,
              chain := result.hybrid_chain, method := "fuzzy_then_translate",
              fallback_used := result.method_used }
          Except.ok (result.step2_result :: tw, d :: wd, st)
    else
      match hybridTokens w lang_a lang_b st rest with
      | Except.error e => Except.error e
      | Except.ok (tw, wd, st) => Except.ok (item :: tw, wd, st)

/-- `Hazer.hybrid_haze`: like `haze` but with the fuzzy-then-translate
per-word step and its `fallback_used` tracking. -/
def hybrid_haze (w : World) (st : HazerState) (sentence lang_a lang_b : String) :
    Except String (HybridSentenceResult × HazerState) :=
  match hybridTokens w lang_a lang_b st (tokenize sentence) with
  | Except.error e => Except.error e
  | Except.ok (transformed_words, word_details, st) =>
    let ts := generate_final_text w (String.join transformed_words) lang_a
    let r : HybridSentenceResult :=
      { original_sentence := sentence, transformed_sentence := ts,
        method := "fuzzy_then_translate",
        language_route := lang_a ++ " → " ++ lang_b ++ " → " ++ lang_a ++ " ",
        word_transformations := word_details, word_count := word_details.length }
    Except.ok (r, st)

/-! ## Convergence Loop (`Hazer.rehaze`) -/

/-- `re.sub(r"\bP\b", rep, s)` for an all-word-character pattern `P`: replace
every occurrence of `P` delimited by word boundaries (previous original
character absent or non-word, next original character absent or non-word);
matching always inspects the original string, so after a replacement the
"previous character" is the pattern's last character.  The extra lookahead
`(?![a-z])` on the `you` pattern is implied by the trailing `\b` (a word
boundary already forbids a following letter), so one function covers all the
cleanup substitutions. -/
def subWordAux (pat rep : List Char) : Nat → Option Char → List Char → List Char
  | 0, _, s => s
  | _, _, [] => []
  | fuel + 1, prev, c :: rest =>
    let boundaryBefore :=
      match prev with
      | none => true
      | some p => !isWordChar p
    let after := (c :: rest).drop pat.length
    let boundaryAfter :=
      match after with
      | [] => true
      | d :: _ => !isWordChar d
    if boundaryBefore && pat.isPrefixOf (c :: rest) && boundaryAfter then
      rep ++ subWordAux pat rep fuel (some (pat.getLastD ' ')) after
    else c :: subWordAux pat rep fuel (some c) rest

/-- `re.sub(r"\bpat\b", rep, text)` (word-character pattern). -/
def subWord (pat rep text : String) : String :=
  String.mk (subWordAux pat.data rep.data text.data.length none text.data)

/-- The fixed cleanup chain `rehaze` applies to every iteration's output
(the duplicated `aii` substitution is kept as in the source). -/
def rehazeCleanup (text : String) : String :=
  let t := subWord "yao" "y" text
  let t := subWord "noo" "no" t
  let t := subWord "you" "y" t
  let t := subWord "dee" "de" t
  let t := subWord "aii" "ahí" t
  let t := subWord "aii" "ahí" t
  let t := subWord "maui" "mi" t
  subWord "ai" "a" t

/-- One Iteration Record of `rehaze`. -/
structure IterationRecord where
  iteration : Nat
  input_text : String
  output_text : String
  similarity_to_previous : ℚ
  word_transformations : List HybridWordDetail
  transformation_count : Nat
  deriving Repr, DecidableEq

/-- The Convergence Result of `rehaze` (the `parameters` sub-dict flattened
into the last two fields). -/
structure ConvergenceResult where
  initial_text : String
  final_text : String
  final_iteration_text : String
  iterations : List IterationRecord
  total_iterations : Nat
  converged : Bool
  final_similarity : ℚ
  language_route : String
  max_iterations : Nat
  similarity_threshold : ℚ
  deriving Repr, DecidableEq

/-- The `for i in range(max_iterations)` loop of `rehaze`: transform, clean
up, score similarity against the previous text (0 by convention on iteration
0), record, and stop on `similarity ≥ similarity_threshold` (`break`: note
`current_text` is NOT updated then) or when the range is exhausted.  Returns
(iterations, current_text, state). -/
def rehazeLoop (w : World) (lang_a lang_b : String) (similarity_threshold : ℚ) :
    Nat → Nat → HazerState → String → List IterationRecord →
    Except String (List IterationRecord × String × HazerState)
  | 0, _, st, current_text, iterations => Except.ok (iterations, current_text, st)
  | fuel + 1, i, st, current_text, iterations =>
    match hybrid_haze w st current_text lang_a lang_b with
    | Except.error e => Except.error e
    | Except.ok (transformed_result, st) =>
      let text := rehazeCleanup transformed_result.transformed_sentence
      let similarity : ℚ :=
        if 0 < i then seqRatio (pyLowerStr current_text) (pyLowerStr text) else 0
      let iteration_data : IterationRecord :=
        { iteration := i + 1, input_text := current_text, output_text := text,
          similarity_to_previous := similarity,
          word_transformations := transformed_result.word_transformations,
          transformation_count := transformed_result.word_transformations.length }
      if similarity_threshold ≤ similarity then
        Except.ok (iterations ++ [iteration_data], current_text, st)
      else
        rehazeLoop w lang_a lang_b similarity_threshold fuel (i + 1) st text
          (iterations ++ [iteration_data])

/-- `"\n".join(...)`. -/
def joinNewline (l : List String) : String :=
  match l with
  | [] => ""
  | x :: xs => xs.foldl (fun acc s => acc ++ "\n" ++ s) x

/-- `Hazer.rehaze` (defaults in Python: `max_iterations=20`,
`similarity_threshold=0.96`). -/
def rehaze (w : World) (st : HazerState) (initial_text lang_a lang_b : String)
    (max_iterations : Nat) (similarity_threshold : ℚ) :
    Except String (ConvergenceResult × HazerState) :=
  match rehazeLoop w lang_a lang_b similarity_threshold max_iterations 0 st initial_text [] with
  | Except.error e => Except.error e
  | Except.ok (iterations, current_text, st) =>
    let r : ConvergenceResult :=
      { initial_text := initial_text,
          final_text := joinNewline (iterations.map fun it => it.output_text),
          final_iteration_text := current_text,
          iterations := iterations,
          total_iterations := iterations.length,
          converged := decide (iterations.length < max_iterations),
          final_similarity :=
            if 1 < iterations.length then
              match iterations.getLast? with
              | some it => it.similarity_to_previous
              | none => 0
            else 0,
          language_route := lang_a ++ " ↔ " ++ lang_b,
          max_iterations := max_iterations,
          similarity_threshold := similarity_threshold }
    Except.ok (r, st)

/-! ## Concrete worlds and states used by witnesses and counterexamples -/

/-- A world in which every external collaborator fails (network tiers
unreachable, translator raising, composer raising). -/
def deadWorld : World :=
  ⟨fun _ => none, fun _ => none, fun _ _ _ => none, fun _ _ => none⟩

/-- A small pre-populated cache of singleton vocabularies:
english ↦ ["world"], spanish ↦ ["hola"] (singletons keep the nearest-match
scan comparison-free, so concrete runs evaluate without forcing any rational
arithmetic). -/
def smallState : HazerState :=
  ⟨[("english", ["world"]), ("spanish", ["hola"])]⟩

/-- The empty cache (a fresh `Hazer()`). -/
def emptyState : HazerState := ⟨[]⟩

/-! ## Helper lemmas -/

theorem chunkRuns_flatten (p : Char → Bool) : ∀ l : List Char, (chunkRuns p l).flatten = l := by
  intro l
  induction l with
  | nil => rfl
  | cons c rest ih =>
    show (chunkRuns p (c :: rest)).flatten = c :: rest
    unfold chunkRuns
    rcases h : chunkRuns p rest with _ | ⟨g, gs⟩
    · simp [h] at ih
      simp [List.flatten, ih]
    · rcases g with _ | ⟨d, ds⟩
      · simp [h, List.flatten] at ih ⊢
        exact ih
      · by_cases hpc : p c = p d
        · simp [hpc, List.flatten] at ih ⊢
          simpa [h, List.flatten] using ih
        · simp [hpc, List.flatten] at ih ⊢
          simpa [h, List.flatten] using ih

theorem foldl_strAppend_data (l : List String) :
    ∀ a : String, (l.foldl (· ++ ·) a).data = a.data ++ (l.map String.data).flatten := by
  induction l with
  | nil => intro a; simp
  | cons x xs ih =>
    intro a
    simp only [List.foldl_cons, ih, List.map_cons, List.flatten_cons, String.data_append]
    simp

theorem string_join_data (l : List String) :
    (String.join l).data = (l.map String.data).flatten := by
  simp [String.join, foldl_strAppend_data l ""]

/-! ## C4: tokenization round-trip -/

/-- C4: for every input sentence, splitting it into maximal word-character
runs and maximal non-word runs (`tokenize`, the token list `Hazer.haze`
iterates over) and concatenating all tokens back in original order with no
per-word transformation reproduces the original sentence exactly. -/
theorem c4_tokenize_round_trip (sentence : String) :
    String.join (tokenize sentence) = sentence := by
  apply String.ext
  rw [string_join_data]
  unfold tokenize
  rw [List.map_map]
  have : (chunkRuns isWordChar sentence.data).map (String.data ∘ String.mk) =
      (chunkRuns isWordChar sentence.data).map id := rfl
  rw [this, List.map_id, chunkRuns_flatten]

/-! ## C7: phonetic code lengths -/

/-- C7: for every word `w` (the empty string included), `soundex w` has
length exactly 4 and `metaphone_simple w` has length at most 6; both are
total functions. -/
theorem c7_code_lengths (w : String) :
    (soundex w).length = 4 ∧ (metaphone_simple w).length ≤ 6 := by
  constructor
  · unfold soundex
    by_cases h : w.data = []
    · simp [h, String.length]
    · simp only [h, if_neg, ite_false]
      rcases hu : (pyUpperStr w).data with _ | ⟨c, rest⟩
      · simp [String.length]
      · simp [String.length, List.length_take, List.length_append]
  · unfold metaphone_simple
    by_cases h : w.data = []
    · simp [h, String.length]
    · simp only [h, if_neg, ite_false]
      simp [String.length, List.length_take]

/-! ## C8: the nearest-match finder never echoes the target -/

theorem pyLowerStr_ne_empty {u : String} (hu : u ≠ "") : pyLowerStr u ≠ "" := by
  intro h
  apply hu
  apply String.ext
  have : (pyLowerStr u).data = [] := by rw [h]
  unfold pyLowerStr at this
  simpa using this

theorem fms_inv (target : String) :
    ∀ (l : List String) (acc : String × Option ℚ),
      (acc = ("", none) ∨ pyLowerStr acc.1 ≠ pyLowerStr target) →
      (l.foldl (fmsStep target true) acc = ("", none) ∨
        pyLowerStr (l.foldl (fmsStep target true) acc).1 ≠ pyLowerStr target) := by
  intro l
  induction l with
  | nil => intro acc h; exact h
  | cons word rest ih =>
    intro acc h
    apply ih
    unfold fmsStep
    by_cases hskip : pyLowerStr word == pyLowerStr target
    · simpa [hskip] using h
    · have hne : pyLowerStr word ≠ pyLowerStr target := by
        simpa using hskip
      simp only [hskip, Bool.true_and, if_neg, Bool.false_eq_true, not_false_eq_true]
      rcases hacc : acc.2 with _ | bd
      · right; simpa using hne
      · by_cases hlt : phonetic_distance target word < bd
        · right; simpa [hlt] using hne
        · simpa [hlt] using h

theorem fms_some_mono (target : String) :
    ∀ (l : List String) (acc : String × Option ℚ), acc.2 ≠ none →
      (l.foldl (fmsStep target true) acc).2 ≠ none := by
  intro l
  induction l with
  | nil => intro acc h; exact h
  | cons word rest ih =>
    intro acc h
    apply ih
    unfold fmsStep
    by_cases hskip : pyLowerStr word == pyLowerStr target
    · simpa [hskip] using h
    · simp only [hskip, Bool.true_and, Bool.false_eq_true, not_false_eq_true, if_neg]
      rcases hacc : acc.2 with _ | bd
      · simp
      · by_cases hlt : phonetic_distance target word < bd
        · simp [hacc, hlt]
        · simp [hacc, hlt]

theorem fms_step_some (target : String) (acc : String × Option ℚ) (u : String)
    (hune : pyLowerStr u ≠ pyLowerStr target) : (fmsStep target true acc u).2 ≠ none := by
  unfold fmsStep
  have hskip : (pyLowerStr u == pyLowerStr target) = false := by
    simpa using hune
  simp only [hskip, Bool.true_and, Bool.false_eq_true, not_false_eq_true, if_neg]
  rcases hacc : acc.2 with _ | bd
  · simp
  · by_cases hlt : phonetic_distance target u < bd <;> simp [hacc, hlt]

theorem fms_progress (target : String) :
    ∀ (l : List String) (acc : String × Option ℚ),
      (∃ u ∈ l, pyLowerStr u ≠ pyLowerStr target) →
      (l.foldl (fmsStep target true) acc).2 ≠ none := by
  intro l
  induction l with
  | nil => rintro acc ⟨u, hu, _⟩; exact absurd hu (List.not_mem_nil u)
  | cons word rest ih =>
    rintro acc ⟨u, hu, hune⟩
    rcases List.mem_cons.mp hu with rfl | hurest
    · rw [List.foldl_cons]
      exact fms_some_mono target rest _ (fms_step_some target acc u hune)
    · rw [List.foldl_cons]
      exact ih _ ⟨u, hurest, hune⟩

/-- C8: for every target word and vocabulary, `find_most_similar_word` with
`force_fuzzy = true` never returns the target itself when the vocabulary
contains the target plus at least one other word (candidates
case-insensitively equal to the target are skipped during the scan). -/
theorem c8_find_never_returns_target (target : String) (vocab : List String)
    (htgt : target ∈ vocab) (hother : ∃ u ∈ vocab, u ≠ target) :
    (find_most_similar_word target vocab true).1 ≠ target := by
  show (vocab.foldl (fmsStep target true) ("", none)).1 ≠ target
  by_cases htgt0 : target = ""
  · subst htgt0
    rcases hother with ⟨u, hu, hune⟩
    have hne : pyLowerStr u ≠ pyLowerStr "" := pyLowerStr_ne_empty hune
    have hsome := fms_progress "" vocab ("", none) ⟨u, hu, hne⟩
    rcases fms_inv "" vocab ("", none) (Or.inl rfl) with h | h
    · rw [h] at hsome; simp at hsome
    · intro hcontra
      exact h (by rw [hcontra])
  · rcases fms_inv target vocab ("", none) (Or.inl rfl) with h | h
    · rw [h]
      exact fun hc => htgt0 hc.symm
    · intro hcontra
      exact h (by rw [hcontra])

/-- C8 witness: at `target = "hello"`, `vocab = ["hello", "world"]` the
hypotheses hold and the returned match differs from the target (concretely
it is `"world"`). -/
theorem c8_witness :
    (find_most_similar_word "hello" ["hello", "world"] true).1 ≠ "hello" ∧
      (find_most_similar_word "hello" ["hello", "world"] true).1 = "world" :=
  ⟨c8_find_never_returns_target "hello" ["hello", "world"] (by decide)
    ⟨"world", by decide, by decide⟩, by decide⟩

/-! ## C1 / C3: the tiered word-list provider -/

/-- `load_word_list` fails exactly when the language is not cached, both
network tiers produce nothing and there is no embedded fallback list. -/
theorem load_error_iff (w : World) (st : HazerState) (language : String) :
    (load_word_list w st language).isOk = false ↔
      (lookupAssoc st.word_lists language = none ∧
        try_frequency_lists w language = [] ∧ try_online_wordlist w language = [] ∧
        lookupAssoc sample_words (pyLowerStr language) = none) := by
  unfold load_word_list
  rcases hc : lookupAssoc st.word_lists language with _ | ws
  · by_cases h1 : try_frequency_lists w language = []
    · by_cases h2 : try_online_wordlist w language = []
      · simp only [h1, h2, ne_eq, not_true_eq_false, ite_false]
        unfold get_builtin_wordlist
        rcases hb : lookupAssoc sample_words (pyLowerStr language) with _ | bs
        · simp [Except.isOk, Except.toBool, hb]
        · simp [Except.isOk, Except.toBool, hb]
      · simp [h1, h2, Except.isOk, Except.toBool]
    · simp [h1, Except.isOk, Except.toBool]
  · simp [hc, Except.isOk, Except.toBool]

/-- A language with an embedded fallback list always loads successfully,
whatever the world and cache. -/
theorem load_ok_of_supported (w : World) (st : HazerState) (language : String)
    (hsup : (lookupAssoc sample_words (pyLowerStr language)).isSome = true) :
    ∃ v st', load_word_list w st language = Except.ok (v, st') := by
  have hne : (load_word_list w st language).isOk ≠ false := by
    intro hfalse
    rcases (load_error_iff w st language).mp hfalse with ⟨-, -, -, hb⟩
    rw [hb] at hsup
    simp at hsup
  rcases hres : load_word_list w st language with e | ⟨v, st'⟩
  · rw [hres] at hne
    simp [Except.isOk, Except.toBool] at hne
  · exact ⟨v, st', rfl⟩

/-- C3: `load_word_list` raises (the modelled `UnsupportedLanguage` /
`ValueError`) exactly when the language is not cached, both network tiers
produce nothing and the language has no embedded fallback list; in
particular `load_word_list` on `"klingon"` fails for every world (both tier
tables lack the language, so the network is never even consulted). -/
theorem c3_unsupported_language (w : World) (st : HazerState) (language : String) :
    ((load_word_list w st language).isOk = false ↔
      (lookupAssoc st.word_lists language = none ∧
        try_frequency_lists w language = [] ∧ try_online_wordlist w language = [] ∧
        lookupAssoc sample_words (pyLowerStr language) = none)) ∧
    (load_word_list w emptyState "klingon").isOk = false :=
  ⟨load_error_iff w st language, rfl⟩

/-- C1 (amended): with the cache missing the language, a non-empty tier-1 or
tier-2 result is returned AND stored in the cache; when both network tiers
produce nothing, the embedded fallback list is returned but the cache is
left unchanged — the fallback result is NOT cached — and a second sequential
`load` call therefore re-resolves and returns the very same embedded
contents. -/
theorem c1_cache_behaviour (w : World) (st : HazerState) (language : String)
    (hmiss : lookupAssoc st.word_lists language = none) :
    (∀ v, try_frequency_lists w language = v → v ≠ [] →
      load_word_list w st language = Except.ok (v, cacheInsert st language v)) ∧
    (try_frequency_lists w language = [] →
      ∀ v, try_online_wordlist w language = v → v ≠ [] →
        load_word_list w st language = Except.ok (v, cacheInsert st language v)) ∧
    (try_frequency_lists w language = [] → try_online_wordlist w language = [] →
      ∀ v st', load_word_list w st language = Except.ok (v, st') →
        st' = st ∧ lookupAssoc sample_words (pyLowerStr language) = some v ∧
          load_word_list w st' language = Except.ok (v, st')) := by
  refine ⟨?_, ?_, ?_⟩
  · intro v hv hne
    unfold load_word_list
    simp [hmiss, hv, hne]
  · intro h1 v hv hne
    unfold load_word_list
    simp [hmiss, h1, hv, hne]
  · intro h1 h2 v st' hload
    have hload' := hload
    unfold load_word_list at hload'
    simp only [hmiss, h1, h2, ne_eq, not_true_eq_false, ite_false] at hload'
    unfold get_builtin_wordlist at hload'
    rcases hb : lookupAssoc sample_words (pyLowerStr language) with _ | bs
    · rw [hb] at hload'
      exact absurd hload' (by simp)
    · rw [hb] at hload'
      have hbs : bs = v := congrArg Prod.fst (Except.ok.inj hload')
      have hst : st = st' := congrArg Prod.snd (Except.ok.inj hload')
      subst hbs
      subst hst
      exact ⟨rfl, rfl, hload⟩

set_option maxRecDepth 16384 in
/-- C1 counterexample: a fresh `Hazer` with every network tier unreachable:
`load_word_list` on `"spanish"` returns the embedded Spanish fallback list,
but afterwards the cache still has no entry for `"spanish"` — the claim's
"the embedded fallback tier's result is also cached once reached" is false
of the code. -/
theorem c1_counterexample :
    (load_word_list deadWorld emptyState "spanish").toOption.map
        (fun p => (p.1 == sampleWordsSpanish, lookupAssoc p.2.word_lists "spanish")) =
      some (true, none) := by
  decide

/-- C1 witness: the amended theorem applied at `deadWorld`, the empty cache
and `"spanish"`: both sequential loads return the embedded Spanish list and
leave the state unchanged. -/
theorem c1_witness :
    emptyState = emptyState ∧
      lookupAssoc sample_words (pyLowerStr "spanish") = some sampleWordsSpanish ∧
      load_word_list deadWorld emptyState "spanish" =
        Except.ok (sampleWordsSpanish, emptyState) :=
  (c1_cache_behaviour deadWorld emptyState "spanish" rfl).2.2 rfl rfl
    sampleWordsSpanish emptyState rfl

/-! ## C9: vocabulary entry shape -/

theorem toNat_ofNat_of_lt {n : Nat} (h : n < 55296) : (Char.ofNat n).toNat = n := by
  have hv : n.isValidChar := Or.inl h
  simp [Char.ofNat, hv, Char.ofNatAux, Char.toNat, UInt32.toNat]

/-- The output of `pyLowerChar` never lands in one of its rewrite ranges. -/
theorem pyLowerChar_lower (c : Char) :
    ¬(65 ≤ (pyLowerChar c).toNat ∧ (pyLowerChar c).toNat ≤ 90) ∧
    ¬(192 ≤ (pyLowerChar c).toNat ∧ (pyLowerChar c).toNat ≤ 222 ∧
        (pyLowerChar c).toNat ≠ 215) ∧
    (pyLowerChar c).toNat ≠ 338 ∧ (pyLowerChar c).toNat ≠ 376 := by
  unfold pyLowerChar
  by_cases h1 : 65 ≤ c.toNat ∧ c.toNat ≤ 90
  · rw [if_pos h1, toNat_ofNat_of_lt (by omega)]
    omega
  · rw [if_neg h1]
    by_cases h2 : 192 ≤ c.toNat ∧ c.toNat ≤ 222 ∧ c.toNat ≠ 215
    · rw [if_pos h2, toNat_ofNat_of_lt (by omega)]
      omega
    · rw [if_neg h2]
      by_cases h3 : c.toNat = 338
      · rw [if_pos h3, toNat_ofNat_of_lt (by omega)]
        omega
      · rw [if_neg h3]
        by_cases h4 : c.toNat = 376
        · rw [if_pos h4, toNat_ofNat_of_lt (by omega)]
          omega
        · rw [if_neg h4]
          exact ⟨h1, h2, h3, h4⟩

theorem pyLowerChar_idem (c : Char) : pyLowerChar (pyLowerChar c) = pyLowerChar c := by
  rcases pyLowerChar_lower c with ⟨h1, h2, h3, h4⟩
  generalize hd : pyLowerChar c = d at h1 h2 h3 h4 ⊢
  unfold pyLowerChar
  rw [if_neg h1, if_neg h2, if_neg h3, if_neg h4]

theorem pyLowerStr_idem (s : String) : pyLowerStr (pyLowerStr s) = pyLowerStr s := by
  apply String.ext
  show (s.data.map pyLowerChar).map pyLowerChar = s.data.map pyLowerChar
  rw [List.map_map]
  exact List.map_congr_left fun c _ => pyLowerChar_idem c

theorem pyLowerStr_length (s : String) : (pyLowerStr s).length = s.length := by
  show (s.data.map pyLowerChar).length = s.data.length
  simp

theorem pyIsAlpha_pyLowerChar {c : Char} (h : pyIsAlpha c = true) :
    pyIsAlpha (pyLowerChar c) = true := by
  unfold pyIsAlpha at h ⊢
  unfold pyLowerChar
  simp only [decide_eq_true_eq] at h
  by_cases h1 : 65 ≤ c.toNat ∧ c.toNat ≤ 90
  · rw [if_pos h1]
    simp only [toNat_ofNat_of_lt (by omega : c.toNat + 32 < 55296), decide_eq_true_eq]
    omega
  · rw [if_neg h1]
    by_cases h2 : 192 ≤ c.toNat ∧ c.toNat ≤ 222 ∧ c.toNat ≠ 215
    · rw [if_pos h2]
      simp only [toNat_ofNat_of_lt (by omega : c.toNat + 32 < 55296), decide_eq_true_eq]
      omega
    · rw [if_neg h2]
      by_cases h3 : c.toNat = 338
      · rw [if_pos h3]
        simp only [toNat_ofNat_of_lt (by omega : (339 : Nat) < 55296), decide_eq_true_eq]
        omega
      · rw [if_neg h3]
        by_cases h4 : c.toNat = 376
        · rw [if_pos h4]
          simp only [toNat_ofNat_of_lt (by omega : (255 : Nat) < 55296), decide_eq_true_eq]
          omega
        · rw [if_neg h4]
          simp only [decide_eq_true_eq]
          exact h

/-- The conditions every entry appended by the tier-1 parsing loop satisfies. -/
theorem parseFreqText_entries (text : String) :
    ∀ word ∈ parseFreqText text,
      (∀ c ∈ word.data, pyIsAlpha c) ∧ 1 ≤ word.length ∧ word.length ≤ 25 ∧
        pyLowerStr word = word := by
  unfold parseFreqText
  generalize (splitOnCharList '\n' (pyStrip text).data).map String.mk = lines
  have inv : ∀ (ls : List String) (acc : List String),
      (∀ word ∈ acc,
        (∀ c ∈ word.data, pyIsAlpha c) ∧ 1 ≤ word.length ∧ word.length ≤ 25 ∧
          pyLowerStr word = word) →
      ∀ word ∈ ls.foldl
        (fun words line =>
          match pySplitWs line with
          | [] => words
          | p :: _ =>
            let word := pyLowerStr (pyStrip p)
            if 1 ≤ word.length ∧ word.length ≤ 25 ∧ (∀ c ∈ word.data, pyIsAlpha c) then
              words ++ [word]
            else words)
        acc,
        (∀ c ∈ word.data, pyIsAlpha c) ∧ 1 ≤ word.length ∧ word.length ≤ 25 ∧
          pyLowerStr word = word := by
    intro ls
    induction ls with
    | nil => intro acc hacc; exact hacc
    | cons line rest ih =>
      intro acc hacc
      rw [List.foldl_cons]
      apply ih
      rcases hsplit : pySplitWs line with _ | ⟨p, ps⟩
      · simpa using hacc
      · simp only []
        by_cases hcond : 1 ≤ (pyLowerStr (pyStrip p)).length ∧
            (pyLowerStr (pyStrip p)).length ≤ 25 ∧
            (∀ c ∈ (pyLowerStr (pyStrip p)).data, pyIsAlpha c)
        · rw [if_pos hcond]
          intro word hw
          rcases List.mem_append.mp hw with hw | hw
          · exact hacc word hw
          · rcases List.mem_singleton.mp hw with rfl
            exact ⟨hcond.2.2, hcond.1, hcond.2.1, pyLowerStr_idem _⟩
        · rw [if_neg hcond]
          exact hacc
  exact inv lines []
    (by intro word hw; exact absurd hw (List.not_mem_nil word))

/-- The conditions every entry of the tier-2 comprehension satisfies. -/
theorem parseOnlineText_entries (text : String) :
    ∀ word ∈ parseOnlineText text,
      (∀ c ∈ word.data, pyIsAlpha c) ∧ 1 ≤ word.length ∧ word.length ≤ 25 ∧
        pyLowerStr word = word := by
  intro word hw
  unfold parseOnlineText at hw
  rcases List.mem_map.mp hw with ⟨l, hl, rfl⟩
  rcases List.mem_filter.mp hl with ⟨-, hcond⟩
  simp only [decide_eq_true_eq] at hcond
  rcases hcond with ⟨-, hlen1, hlen2, halpha⟩
  refine ⟨?_, ?_, ?_, pyLowerStr_idem _⟩
  · intro c hc
    unfold pyLowerStr at hc
    rcases List.mem_map.mp hc with ⟨d, hd, rfl⟩
    exact pyIsAlpha_pyLowerChar (halpha d hd)
  · rw [pyLowerStr_length]
    exact hlen1
  · rw [pyLowerStr_length]
    exact hlen2

/-- C9 (amended): every vocabulary entry produced by the tier-1 or tier-2
parsers is a lowercase, purely alphabetic word (of length 1-25); the
embedded fallback lists however are not all purely alphabetic (three entries
contain a space, see the counterexample). -/
theorem c9_tier_entries_lowercase_alpha (text word : String)
    (h : word ∈ parseFreqText text ∨ word ∈ parseOnlineText text) :
    (∀ c ∈ word.data, pyIsAlpha c) ∧ 1 ≤ word.length ∧ word.length ≤ 25 ∧
      pyLowerStr word = word := by
  rcases h with h | h
  · exact parseFreqText_entries text word h
  · exact parseOnlineText_entries text word h

/-- C9 witness: the tier-1 parser on a concrete two-line frequency file
yields the entry `"hola"`, which the theorem certifies lowercase and
alphabetic. -/
theorem c9_witness :
    (∀ c ∈ "hola".data, pyIsAlpha c) ∧ 1 ≤ "hola".length ∧ "hola".length ≤ 25 ∧
      pyLowerStr "hola" = "hola" :=
  c9_tier_entries_lowercase_alpha "hola 545\nQUE 321\nx9 7" "hola"
    (Or.inl (by decide))

set_option maxRecDepth 16384 in
/-- C9 counterexample: the provider's embedded fallback tier for French
(reached when both network tiers are unreachable) returns a list containing
`"avoir besoin"`, an entry with a space — not a purely alphabetic word
string. -/
theorem c9_counterexample :
    (load_word_list deadWorld emptyState "french").toOption.map
        (fun p => (p.1 == sampleWordsFrench, lookupAssoc p.2.word_lists "french")) =
      some (true, none) ∧
      "avoir besoin" ∈ sampleWordsFrench ∧
      ¬(∀ c ∈ "avoir besoin".data, pyIsAlpha c) := by
  refine ⟨by decide, by decide, by decide⟩

/-! ## C2: hybrid fallback correctness -/

/-- The failure marker always matches the `startswith("[untranslated:")` test. -/
theorem startsWith_marker (b : String) :
    pyStartsWith (untranslatedMarker b) "[untranslated:" = true := by
  rfl

/-- Inverting a successful `fuzzy_haze` whose translation attempt failed (the
result matches the marker pattern or echoes the matched word): the record is
the fallback record built from the two nearest-match hops. -/
theorem fuzzy_haze_fallback_eq (w : World) (st : HazerState) (word lang_a lang_b : String)
    (wlA wlB : List String) (st₁ st₂ : HazerState)
    (hA : load_word_list w st lang_a = Except.ok (wlA, st₁))
    (hB : load_word_list w st₁ lang_b = Except.ok (wlB, st₂))
    (hfail :
      pyStartsWith (simple_translate w (find_most_similar_word word wlB true).1 lang_b lang_a)
          "[untranslated:" = true ∨
        simple_translate w (find_most_similar_word word wlB true).1 lang_b lang_a =
          (find_most_similar_word word wlB true).1) :
    fuzzy_haze w st word lang_a lang_b = Except.ok
      ({ original_input := word, lang_a := lang_a, lang_b := lang_b,
         step1_fuzzy_lang_b := (find_most_similar_word word wlB true).1,
         step2_result :=
           (find_most_similar_word (find_most_similar_word word wlB true).1 wlA true).1,
         method_used := "fuzzy_fallback",
         hybrid_chain := word ++ " → " ++ (find_most_similar_word word wlB true).1 ++ " → "
           ++ (find_most_similar_word (find_most_similar_word word wlB true).1 wlA true).1
           ++ " (fuzzy_fallback)",
         fuzzy_similarity := (find_most_similar_word word wlB true).2,
         final_similarity :=
           (find_most_similar_word (find_most_similar_word word wlB true).1 wlA true).2 },
        st₂) := by
  have hcond : (pyStartsWith
      (simple_translate w (find_most_similar_word word wlB true).1 lang_b lang_a)
        "[untranslated:" ||
      (simple_translate w (find_most_similar_word word wlB true).1 lang_b lang_a ==
        (find_most_similar_word word wlB true).1)) = true := by
    rcases hfail with h | h
    · simp [h]
    · simp [h]
  unfold fuzzy_haze
  rw [hA]
  dsimp only
  rw [hB]
  dsimp only
  rw [if_pos hcond]

/-- A successful `fuzzy_haze` under an always-failing translation pair
reports `method_used = "fuzzy_fallback"`. -/
theorem fuzzy_haze_method_fallback (w : World) (lang_a lang_b : String)
    (hfail : ∀ b : String,
      pyStartsWith (simple_translate w b lang_b lang_a) "[untranslated:" = true ∨
        simple_translate w b lang_b lang_a = b)
    (st : HazerState) (word : String) (r : HybridWordResult) (st' : HazerState)
    (h : fuzzy_haze w st word lang_a lang_b = Except.ok (r, st')) :
    r.method_used = "fuzzy_fallback" := by
  rcases hA : load_word_list w st lang_a with e | ⟨wlA, st₁⟩
  · unfold fuzzy_haze at h
    rw [hA] at h
    dsimp only at h
    exact Except.noConfusion h
  · rcases hB : load_word_list w st₁ lang_b with e | ⟨wlB, st₂⟩
    · unfold fuzzy_haze at h
      rw [hA] at h
      dsimp only at h
      rw [hB] at h
      dsimp only at h
      exact Except.noConfusion h
    · rw [fuzzy_haze_fallback_eq w st word lang_a lang_b wlA wlB st₁ st₂ hA hB
        (hfail (find_most_similar_word word wlB true).1)] at h
      have := Except.ok.inj h
      rw [Prod.mk.injEq] at this
      rw [← this.1]

/-- Every word detail a successful `hybridTokens` run produces under an
always-failing translation pair carries `fallback_used = "fuzzy_fallback"`. -/
theorem hybridTokens_fallback (w : World) (lang_a lang_b : String)
    (hfail : ∀ b : String,
      pyStartsWith (simple_translate w b lang_b lang_a) "[untranslated:" = true ∨
        simple_translate w b lang_b lang_a = b) :
    ∀ (toks : List String) (st : HazerState) (tw : List String)
      (wd : List HybridWordDetail) (st' : HazerState),
      hybridTokens w lang_a lang_b st toks = Except.ok (tw, wd, st') →
      ∀ d ∈ wd, d.fallback_used = "fuzzy_fallback" := by
  intro toks
  induction toks with
  | nil =>
    intro st tw wd st' h d hd
    unfold hybridTokens at h
    have := Except.ok.inj h
    rw [Prod.mk.injEq, Prod.mk.injEq] at this
    rw [← this.2.1] at hd
    exact absurd hd (List.not_mem_nil d)
  | cons item rest ih =>
    intro st tw wd st' h d hd
    unfold hybridTokens at h
    by_cases hw : isWordToken item
    · rw [if_pos hw] at h
      rcases hfh : fuzzy_haze w st item lang_a lang_b with e | ⟨r, st₁⟩
      · rw [hfh] at h
        dsimp only at h
        exact Except.noConfusion h
      · rw [hfh] at h
        dsimp only at h
        rcases hrest : hybridTokens w lang_a lang_b st₁ rest with e | ⟨tw', wd', st''⟩
        · rw [hrest] at h
          dsimp only at h
          exact Except.noConfusion h
        · rw [hrest] at h
          dsimp only at h
          have heq := Except.ok.inj h
          rw [Prod.mk.injEq, Prod.mk.injEq] at heq
          rw [← heq.2.1] at hd
          rcases List.mem_cons.mp hd with rfl | hd'
          · show r.method_used = "fuzzy_fallback"
            exact fuzzy_haze_method_fallback w lang_a lang_b hfail st item r st₁ hfh
          · exact ih st₁ tw' wd' st'' hrest d hd'
    · rw [if_neg hw] at h
      rcases hrest : hybridTokens w lang_a lang_b st rest with e | ⟨tw', wd', st''⟩
      · rw [hrest] at h
        dsimp only at h
        exact Except.noConfusion h
      · rw [hrest] at h
        dsimp only at h
        have heq := Except.ok.inj h
        rw [Prod.mk.injEq, Prod.mk.injEq] at heq
        rw [← heq.2.1] at hd
        exact ih st tw' wd' st'' hrest d hd

/-- C2: when the translation collaborator always fails for the `lang_b → lang_a`
hop (its result matches the `"[untranslated: ...]"` marker pattern or echoes
the untranslated match unchanged), (1) every successful `fuzzy_haze` call
returns the fallback record: `method_used = "fuzzy_fallback"`, the final word
is the second nearest-match hop in vocabulary A, and `final_similarity` is
that hop's similarity; and (2) every word detail of a successful
`hybrid_haze` sentence run reports `fallback_used = "fuzzy_fallback"`. -/
theorem c2_hybrid_fallback (w : World) (lang_a lang_b : String)
    (hfail : ∀ b : String,
      pyStartsWith (simple_translate w b lang_b lang_a) "[untranslated:" = true ∨
        simple_translate w b lang_b lang_a = b) :
    (∀ (st : HazerState) (word : String) (wlA wlB : List String) (st₁ st₂ : HazerState),
      load_word_list w st lang_a = Except.ok (wlA, st₁) →
      load_word_list w st₁ lang_b = Except.ok (wlB, st₂) →
      fuzzy_haze w st word lang_a lang_b = Except.ok
        ({ original_input := word, lang_a := lang_a, lang_b := lang_b,
           step1_fuzzy_lang_b := (find_most_similar_word word wlB true).1,
           step2_result :=
             (find_most_similar_word (find_most_similar_word word wlB true).1 wlA true).1,
           method_used := "fuzzy_fallback",
           hybrid_chain := word ++ " → " ++ (find_most_similar_word word wlB true).1
             ++ " → "
             ++ (find_most_similar_word (find_most_similar_word word wlB true).1 wlA true).1
             ++ " (fuzzy_fallback)",
           fuzzy_similarity := (find_most_similar_word word wlB true).2,
           final_similarity :=
             (find_most_similar_word (find_most_similar_word word wlB true).1 wlA true).2 },
          st₂)) ∧
    (∀ (st : HazerState) (sentence : String) (r : HybridSentenceResult) (st' : HazerState),
      hybrid_haze w st sentence lang_a lang_b = Except.ok (r, st') →
      ∀ d ∈ r.word_transformations, d.fallback_used = "fuzzy_fallback") := by
  constructor
  · intro st word wlA wlB st₁ st₂ hA hB
    exact fuzzy_haze_fallback_eq w st word lang_a lang_b wlA wlB st₁ st₂ hA hB
      (hfail (find_most_similar_word word wlB true).1)
  · intro st sentence r st' h
    unfold hybrid_haze at h
    rcases htoks : hybridTokens w lang_a lang_b st (tokenize sentence) with e | ⟨tw, wd, st''⟩
    · rw [htoks] at h
      dsimp only at h
      exact Except.noConfusion h
    · rw [htoks] at h
      dsimp only at h
      have heq := Except.ok.inj h
      rw [Prod.mk.injEq] at heq
      have hwt : r.word_transformations = wd := by
        rw [← heq.1]
      rw [hwt]
      exact hybridTokens_fallback w lang_a lang_b hfail (tokenize sentence) st tw wd st'' htoks

/-- C2 witness: with every collaborator dead and the cache pre-populated
(english ↦ ["world"], spanish ↦ ["hola"]), the spanish→english
translation hop always fails (that pair is not in the built-in dictionary),
and `fuzzy_haze` on `"hello"` returns the two-hop fallback record. -/
theorem c2_witness :
    fuzzy_haze deadWorld smallState "hello" "english" "spanish" = Except.ok
      ({ original_input := "hello", lang_a := "english", lang_b := "spanish",
         step1_fuzzy_lang_b := (find_most_similar_word "hello" ["hola"] true).1,
         step2_result :=
           (find_most_similar_word (find_most_similar_word "hello" ["hola"] true).1
             ["world"] true).1,
         method_used := "fuzzy_fallback",
         hybrid_chain := "hello" ++ " → "
           ++ (find_most_similar_word "hello" ["hola"] true).1 ++ " → "
           ++ (find_most_similar_word (find_most_similar_word "hello" ["hola"] true).1
             ["world"] true).1
           ++ " (fuzzy_fallback)",
         fuzzy_similarity := (find_most_similar_word "hello" ["hola"] true).2,
         final_similarity :=
           (find_most_similar_word (find_most_similar_word "hello" ["hola"] true).1
             ["world"] true).2 },
        smallState) :=
  (c2_hybrid_fallback deadWorld "english" "spanish"
      (fun b => Or.inl (startsWith_marker b))).1
    smallState "hello" ["world"] ["hola"] smallState smallState rfl rfl

/-! ## C10: the `haze` method dispatch is a binary test -/

/-- Replace the `method` label of a word detail. -/
def relabelDetail (m : String) (d : WordDetail) : WordDetail :=
  { d with method := m }

/-- Replace the `method` labels of a Sentence Result (the only fields of
`haze`'s output that mention the method string). -/
def relabelResult (m : String) (r : SentenceResult) : SentenceResult :=
  { r with method := m,
           word_transformations := r.word_transformations.map (relabelDetail m) }

/-- For any method other than `"fuzzy"`, the token loop of `haze` computes
exactly what it computes for `"hybrid"` (or any other non-fuzzy method),
re-labelled: the dispatch is the single test `method == "fuzzy"`. -/
theorem hazeTokens_relabel (w : World) (lang_a lang_b m : String) (hm : m ≠ "fuzzy") :
    ∀ (toks : List String) (st : HazerState),
      hazeTokens w lang_a lang_b m st toks =
        (hazeTokens w lang_a lang_b "hybrid" st toks).map
          (fun p => (p.1, p.2.1.map (relabelDetail m), p.2.2)) := by
  intro toks
  induction toks with
  | nil =>
    intro st
    rfl
  | cons item rest ih =>
    intro st
    show (if isWordToken item then _ else _) =
      ((if isWordToken item then _ else _ : Except String _).map _)
    by_cases hw : isWordToken item
    · rw [if_pos hw, if_pos hw]
      rw [if_neg hm, if_neg (by decide : ¬("hybrid" : String) = "fuzzy")]
      rcases ht : transform_direct_translate w st item lang_a lang_b with e | ⟨res, st₁⟩
      · rfl
      · dsimp only
        rw [ih st₁]
        rcases hrest : hazeTokens w lang_a lang_b "hybrid" st₁ rest with e | ⟨tw, wd, st₂⟩
        · rfl
        · rfl
    · rw [if_neg hw, if_neg hw]
      rw [ih st]
      rcases hrest : hazeTokens w lang_a lang_b "hybrid" st rest with e | ⟨tw, wd, st₂⟩
      · rfl
      · rfl

/-- C10: `haze` dispatches on `method` with a binary test.  (1) For every
`m ≠ "fuzzy"` — `"hybrid"` or any arbitrary unvalidated string — the result
is the `"hybrid"`-method result with the method labels replaced by `m`:
there is no hybrid branch in `haze`, every non-fuzzy method runs the
translate strategy.  (2) On a single word token a non-fuzzy method runs
`transform_direct_translate`, and (3) `"fuzzy"` runs `transform_direct_fuzzy`. -/
theorem c10_haze_dispatch (w : World) (st : HazerState)
    (sentence lang_a lang_b m : String) (hm : m ≠ "fuzzy") :
    (haze w st sentence lang_a lang_b m =
      (haze w st sentence lang_a lang_b "hybrid").map
        (fun p => (relabelResult m p.1, p.2))) ∧
    (∀ (st₀ : HazerState) (item : String), isWordToken item = true →
      hazeTokens w lang_a lang_b m st₀ [item] =
        (transform_direct_translate w st₀ item lang_a lang_b).map
          (fun p => ([p.1.final_translation],
            [{ original := item, transformed := p.1.final_translation,
               chain := p.1.direct_chain, method := m }], p.2))) ∧
    (∀ (st₀ : HazerState) (item : String), isWordToken item = true →
      hazeTokens w lang_a lang_b "fuzzy" st₀ [item] =
        (transform_direct_fuzzy w st₀ item lang_a lang_b).map
          (fun p => ([p.1.step2_final_lang_a],
            [{ original := item, transformed := p.1.step2_final_lang_a,
               chain := p.1.direct_fuzzy_chain, method := "fuzzy" }], p.2))) := by
  refine ⟨?_, ?_, ?_⟩
  · unfold haze
    rw [hazeTokens_relabel w lang_a lang_b m hm]
    rcases htoks : hazeTokens w lang_a lang_b "hybrid" st (tokenize sentence)
      with e | ⟨tw, wd, st₂⟩
    · rfl
    · dsimp only [Except.map]
      unfold relabelResult
      simp [SentenceResult.mk.injEq]
  · intro st₀ item hw
    show (if isWordToken item then _ else _) = _
    rw [if_pos hw, if_neg hm]
    rcases ht : transform_direct_translate w st₀ item lang_a lang_b with e | ⟨res, st₁⟩
    · rfl
    · rfl
  · intro st₀ item hw
    show (if isWordToken item then _ else _) = _
    rw [if_pos hw, if_pos rfl]
    rcases ht : transform_direct_fuzzy w st₀ item lang_a lang_b with e | ⟨res, st₁⟩
    · rfl
    · rfl

/-- C10 witness: at the arbitrary unvalidated method string `"xyz"`, `haze`
returns the `"hybrid"` result relabelled — the translate strategy for every
word. -/
theorem c10_witness :
    haze deadWorld smallState "hi" "english" "spanish" "xyz" =
      (haze deadWorld smallState "hi" "english" "spanish" "hybrid").map
        (fun p => (relabelResult "xyz" p.1, p.2)) :=
  (c10_haze_dispatch deadWorld smallState "hi" "english" "spanish" "xyz"
    (by decide)).1

/-! ## C5 / C6: the convergence loop -/

/-- `fuzzy_haze` succeeds whenever both languages have embedded fallback
lists (whatever the world and cache). -/
theorem fuzzy_haze_ok_of_supported (w : World) (lang_a lang_b : String)
    (hA : (lookupAssoc sample_words (pyLowerStr lang_a)).isSome = true)
    (hB : (lookupAssoc sample_words (pyLowerStr lang_b)).isSome = true)
    (st : HazerState) (word : String) :
    ∃ r st', fuzzy_haze w st word lang_a lang_b = Except.ok (r, st') := by
  obtain ⟨wlA, st₁, hla⟩ := load_ok_of_supported w st lang_a hA
  obtain ⟨wlB, st₂, hlb⟩ := load_ok_of_supported w st₁ lang_b hB
  cases hc : (pyStartsWith
      (simple_translate w (find_most_similar_word word wlB true).1 lang_b lang_a)
        "[untranslated:" ||
      (simple_translate w (find_most_similar_word word wlB true).1 lang_b lang_a ==
        (find_most_similar_word word wlB true).1)) with
  | false =>
    have heq : fuzzy_haze w st word lang_a lang_b = Except.ok
        ({ original_input := word, lang_a := lang_a, lang_b := lang_b,
           step1_fuzzy_lang_b := (find_most_similar_word word wlB true).1,
           step2_result :=
             simple_translate w (find_most_similar_word word wlB true).1 lang_b lang_a,
           method_used := "translate",
           hybrid_chain := word ++ " → " ++ (find_most_similar_word word wlB true).1
             ++ " → "
             ++ simple_translate w (find_most_similar_word word wlB true).1 lang_b lang_a
             ++ " (translate)",
           fuzzy_similarity := (find_most_similar_word word wlB true).2,
           final_similarity := some 1 }, st₂) := by
      unfold fuzzy_haze
      rw [hla]
      dsimp only
      rw [hlb]
      dsimp only
      rw [if_neg (by simp [hc])]
    exact ⟨_, _, heq⟩
  | true =>
    have hfail : pyStartsWith
        (simple_translate w (find_most_similar_word word wlB true).1 lang_b lang_a)
          "[untranslated:" = true ∨
        simple_translate w (find_most_similar_word word wlB true).1 lang_b lang_a =
          (find_most_similar_word word wlB true).1 := by
      rw [Bool.or_eq_true] at hc
      rcases hc with h | h
      · exact Or.inl h
      · exact Or.inr (by simpa using h)
    exact ⟨_, _, fuzzy_haze_fallback_eq w st word lang_a lang_b wlA wlB st₁ st₂
      hla hlb hfail⟩

/-- `hybridTokens` succeeds on every token list whenever both languages have
embedded fallback lists. -/
theorem hybridTokens_ok_of_supported (w : World) (lang_a lang_b : String)
    (hA : (lookupAssoc sample_words (pyLowerStr lang_a)).isSome = true)
    (hB : (lookupAssoc sample_words (pyLowerStr lang_b)).isSome = true) :
    ∀ (toks : List String) (st : HazerState),
      ∃ tw wd st', hybridTokens w lang_a lang_b st toks = Except.ok (tw, wd, st') := by
  intro toks
  induction toks with
  | nil => intro st; exact ⟨[], [], st, rfl⟩
  | cons item rest ih =>
    intro st
    by_cases hw : isWordToken item
    · obtain ⟨r, st₁, hfz⟩ := fuzzy_haze_ok_of_supported w lang_a lang_b hA hB st item
      obtain ⟨tw, wd, st', hrest⟩ := ih st₁
      have heq : hybridTokens w lang_a lang_b st (item :: rest) = Except.ok
          (r.step2_result :: tw,
            ({ original := item, transformed := r.step2_result, chain := r.hybrid_chain,
               method := "fuzzy_then_translate", fallback_used := r.method_used } :
              HybridWordDetail) :: wd,
            st') := by
        unfold hybridTokens
        rw [if_pos hw, hfz]
        dsimp only
        rw [hrest]
      exact ⟨_, _, _, heq⟩
    · obtain ⟨tw, wd, st', hrest⟩ := ih st
      refine ⟨item :: tw, wd, st', ?_⟩
      unfold hybridTokens
      rw [if_neg hw, hrest]

/-- `hybrid_haze` succeeds whenever both languages have embedded fallback
lists. -/
theorem hybrid_haze_ok_of_supported (w : World) (lang_a lang_b : String)
    (hA : (lookupAssoc sample_words (pyLowerStr lang_a)).isSome = true)
    (hB : (lookupAssoc sample_words (pyLowerStr lang_b)).isSome = true)
    (st : HazerState) (sentence : String) :
    ∃ r st', hybrid_haze w st sentence lang_a lang_b = Except.ok (r, st') := by
  obtain ⟨tw, wd, st', htoks⟩ :=
    hybridTokens_ok_of_supported w lang_a lang_b hA hB (tokenize sentence) st
  have heq : hybrid_haze w st sentence lang_a lang_b = Except.ok
      ({ original_sentence := sentence,
         transformed_sentence := generate_final_text w (String.join tw) lang_a,
         method := "fuzzy_then_translate",
         language_route := lang_a ++ " → " ++ lang_b ++ " → " ++ lang_a ++ " ",
         word_transformations := wd, word_count := wd.length }, st') := by
    unfold hybrid_haze
    rw [htoks]
  exact ⟨_, _, heq⟩

/-- With `similarity_threshold = 0`, the loop breaks at the very first
iteration: the convention `similarity = 0` on iteration 0 already meets the
threshold. -/
theorem rehazeLoop_zero_threshold (w : World) (lang_a lang_b : String)
    (fuel : Nat) (hf : fuel ≠ 0) (st : HazerState) (cur : String)
    (iters : List IterationRecord) (hr : HybridSentenceResult) (st₁ : HazerState)
    (hh : hybrid_haze w st cur lang_a lang_b = Except.ok (hr, st₁)) :
    rehazeLoop w lang_a lang_b 0 fuel 0 st cur iters =
      Except.ok (iters ++
        [{ iteration := 1, input_text := cur,
           output_text := rehazeCleanup hr.transformed_sentence,
           similarity_to_previous := 0,
           word_transformations := hr.word_transformations,
           transformation_count := hr.word_transformations.length }], cur, st₁) := by
  rcases fuel with _ | fuel
  · exact absurd rfl hf
  · unfold rehazeLoop
    rw [hh]
    dsimp only
    rw [if_neg (lt_irrefl 0), if_pos (le_refl (0 : ℚ))]

/-- C5 (amended): for every input text and every language pair whose word
lists resolve (any pair with embedded fallback lists, whatever the world and
cache), `rehaze` with `similarity_threshold = 0` and the default
`max_iterations = 20` terminates with `converged = true` after exactly one
(hence at most 2) iterations, whose `similarity_to_previous` is 0 by the
first-iteration convention; a pair whose word lists do not resolve instead
propagates the `UnsupportedLanguage` error (see the counterexample). -/
theorem c5_rehaze_converges (w : World) (st : HazerState) (text lang_a lang_b : String)
    (hA : (lookupAssoc sample_words (pyLowerStr lang_a)).isSome = true)
    (hB : (lookupAssoc sample_words (pyLowerStr lang_b)).isSome = true) :
    ∃ r st', rehaze w st text lang_a lang_b 20 0 = Except.ok (r, st') ∧
      r.converged = true ∧ r.total_iterations = 1 ∧ r.total_iterations ≤ 2 ∧
      (r.iterations.map fun it => it.similarity_to_previous) = [0] := by
  obtain ⟨hr, st₁, hh⟩ := hybrid_haze_ok_of_supported w lang_a lang_b hA hB st text
  have hre : rehaze w st text lang_a lang_b 20 0 = Except.ok
      ({ initial_text := text,
         final_text := rehazeCleanup hr.transformed_sentence,
         final_iteration_text := text,
         iterations := [{ iteration := 1, input_text := text,
                          output_text := rehazeCleanup hr.transformed_sentence,
                          similarity_to_previous := 0,
                          word_transformations := hr.word_transformations,
                          transformation_count := hr.word_transformations.length }],
         total_iterations := 1, converged := true, final_similarity := 0,
         language_route := lang_a ++ " ↔ " ++ lang_b,
         max_iterations := 20, similarity_threshold := 0 }, st₁) := by
    unfold rehaze
    rw [rehazeLoop_zero_threshold w lang_a lang_b 20 (by decide) st text [] hr st₁ hh]
    rfl
  exact ⟨_, st₁, hre, rfl, rfl, by norm_num, rfl⟩

set_option maxRecDepth 16384 in
/-- C5 counterexample: the claim as stated quantifies over every language
pair; for the pair klingon/klingon (no cache entry, no tier URL, no embedded
list) `rehaze` with threshold 0 does not return `converged = true` — it
propagates the `UnsupportedLanguage` error. -/
theorem c5_counterexample :
    rehaze deadWorld emptyState "hello" "klingon" "klingon" 20 0 =
      Except.error "Language klingon not supported" := by
  rfl

/-- C5 witness: at `deadWorld`, the empty cache and the pair
english/spanish, `rehaze` with threshold 0 converges after one iteration. -/
theorem c5_witness :
    ∃ r st', rehaze deadWorld emptyState "hi" "english" "spanish" 20 0 =
        Except.ok (r, st') ∧
      r.converged = true ∧ r.total_iterations = 1 ∧ r.total_iterations ≤ 2 ∧
      (r.iterations.map fun it => it.similarity_to_previous) = [0] :=
  c5_rehaze_converges deadWorld emptyState "hi" "english" "spanish" rfl rfl

/-- When the loop exits early (fewer iterations recorded than the fuel
allowed), it exited through the `break`, which does NOT update
`current_text`: the returned text is the last recorded iteration's
`input_text`. -/
theorem rehazeLoop_break_input (w : World) (lang_a lang_b : String) (th : ℚ) :
    ∀ (fuel i : Nat) (st : HazerState) (cur : String) (acc its : List IterationRecord)
      (fin : String) (st' : HazerState),
      rehazeLoop w lang_a lang_b th fuel i st cur acc = Except.ok (its, fin, st') →
      its.length < acc.length + fuel →
      ∃ last, its.getLast? = some last ∧ fin = last.input_text := by
  intro fuel
  induction fuel with
  | zero =>
    intro i st cur acc its fin st' h hlen
    unfold rehazeLoop at h
    have heq := Except.ok.inj h
    rw [Prod.mk.injEq, Prod.mk.injEq] at heq
    rw [← heq.1] at hlen
    omega
  | succ fuel ih =>
    intro i st cur acc its fin st' h hlen
    unfold rehazeLoop at h
    rcases hh : hybrid_haze w st cur lang_a lang_b with e | ⟨tr, st₁⟩
    · rw [hh] at h
      dsimp only at h
      exact Except.noConfusion h
    · rw [hh] at h
      dsimp only at h
      by_cases hbr : th ≤ (if 0 < i then
          seqRatio (pyLowerStr cur) (pyLowerStr (rehazeCleanup tr.transformed_sentence))
        else 0)
      · rw [if_pos hbr] at h
        have heq := Except.ok.inj h
        rw [Prod.mk.injEq, Prod.mk.injEq] at heq
        refine ⟨{ iteration := i + 1, input_text := cur,
                  output_text := rehazeCleanup tr.transformed_sentence,
                  similarity_to_previous := if 0 < i then
                      seqRatio (pyLowerStr cur)
                        (pyLowerStr (rehazeCleanup tr.transformed_sentence))
                    else 0,
                  word_transformations := tr.word_transformations,
                  transformation_count := tr.word_transformations.length }, ?_, ?_⟩
        · rw [← heq.1]
          exact List.getLast?_concat _
        · exact heq.2.1.symm
      · rw [if_neg hbr] at h
        apply ih (i + 1) st₁ (rehazeCleanup tr.transformed_sentence) _ its fin st' h
        rw [List.length_append, List.length_singleton]
        omega

/-- C6 (amended): in every Convergence Result `rehaze` returns, `final_text`
joins every iteration's `output_text` with newlines; but when the loop
converged (stopped by the similarity `break`), `final_iteration_text` is the
INPUT text of the final recorded iteration (the loop breaks before updating
`current_text`), not its `output_text`. -/
theorem c6_final_text (w : World) (st : HazerState) (text lang_a lang_b : String)
    (mi : Nat) (th : ℚ) (r : ConvergenceResult) (st' : HazerState)
    (h : rehaze w st text lang_a lang_b mi th = Except.ok (r, st')) :
    r.final_text = joinNewline (r.iterations.map fun it => it.output_text) ∧
    (r.converged = true →
      ∃ last, r.iterations.getLast? = some last ∧
        r.final_iteration_text = last.input_text) := by
  unfold rehaze at h
  rcases hloop : rehazeLoop w lang_a lang_b th mi 0 st text [] with e | ⟨its, fin, st₁⟩
  · rw [hloop] at h
    dsimp only at h
    exact Except.noConfusion h
  · rw [hloop] at h
    dsimp only at h
    have heq := Except.ok.inj h
    rw [Prod.mk.injEq] at heq
    constructor
    · rw [← heq.1]
    · intro hconv
      rw [← heq.1] at hconv ⊢
      have hlen : its.length < mi := by
        simpa using of_decide_eq_true hconv
      obtain ⟨last, hl, hf⟩ := rehazeLoop_break_input w lang_a lang_b th mi 0 st text []
        its fin st₁ hloop (by simpa using hlen)
      exact ⟨last, hl, hf⟩

set_option maxRecDepth 65536 in
/-- C6 counterexample: at `deadWorld` with the cache english ↦ ["world"],
spanish ↦ ["hola"], `rehaze "hello" english spanish` (threshold 0)
converges after one iteration whose `output_text` is `"world"`, yet
`final_iteration_text` is `"hello"` — the *input*, not the output, of the
final recorded iteration; the claim "final_iteration_text ... equals the
output_text of the final recorded iteration" is false of the code. -/
theorem c6_counterexample :
    (rehaze deadWorld smallState "hello" "english" "spanish" 20 0).toOption.map
        (fun p => (p.1.final_iteration_text,
          p.1.iterations.map fun it => it.output_text, p.1.converged)) =
      some ("hello", ["world"], true) := by
  decide

set_option maxRecDepth 65536 in
/-- C6 witness: the amended theorem applied to that same concrete run. -/
theorem c6_witness :
    (rehaze deadWorld smallState "hello" "english" "spanish" 20 0).toOption.map
        (fun p => decide (p.1.final_text =
          joinNewline (p.1.iterations.map fun it => it.output_text))) = some true := by
  have hsome : (rehaze deadWorld smallState "hello" "english" "spanish" 20 0).isOk = true := by
    decide
  rcases hrun : rehaze deadWorld smallState "hello" "english" "spanish" 20 0
    with e | ⟨r, st'⟩
  · rw [hrun] at hsome
    simp [Except.isOk, Except.toBool] at hsome
  · have hc := c6_final_text deadWorld smallState "hello" "english" "spanish" 20 0
      r st' hrun
    simp [Except.toOption, hc.1]

end Haze
